import Mathlib

/-!
Verification of the document-quality-assessment repository's criteria
evaluation engine and parallel pipeline.

The development shallowly embeds the Python sources:
  * src/criteria.py            — criteria evaluation engine
  * src/document_assessor/evaluator.py — worker and pipeline
  * src/document_assessor/handlers/pdf_handler.py — PDF page extraction

Numbers (Python floats) are modelled as rationals.  Image-processing
primitives (cv2/numpy/PIL metric computations) are modelled as per-page
oracle values carried by the page record: the engine only consumes their
scalar results.  Computations that can raise in Python are modelled in the
Except monad; a Python comparison against None raises a TypeError, which
the embedding reproduces.
-/

set_option autoImplicit false

namespace DocQA

/-- src/models.py CriteriaType. -/
inductive CriteriaType where
  | required
  | recommended
  | warning
deriving DecidableEq

/-- src/models.py Threshold: a sparse record of optional numeric bounds. -/
structure Threshold where
  min_dpi : Option ℚ := none
  min : Option ℚ := none
  max : Option ℚ := none
  min_variance : Option ℚ := none
  max_deg : Option ℚ := none
  min_percent : Option ℚ := none
  max_percent : Option ℚ := none
  max_overlap : Option ℚ := none
  min_entropy : Option ℚ := none
  min_content_ratio : Option ℚ := none
deriving DecidableEq

/-- src/models.py CriteriaConfig. -/
structure CriteriaConfig where
  name : String
  type : CriteriaType
  description : String := ""
  threshold : Option Threshold := none
  aggregate_mode : String := "min"
deriving DecidableEq

/-- Python comparison a < b where either side may be None (raises TypeError). -/
def pyLt : Option ℚ → Option ℚ → Except String Bool
  | some a, some b => .ok (decide (a < b))
  | _, _ => .error "TypeError: comparison not supported with NoneType"

/-- Python comparison a <= b where either side may be None (raises TypeError). -/
def pyLe : Option ℚ → Option ℚ → Except String Bool
  | some a, some b => .ok (decide (a ≤ b))
  | _, _ => .error "TypeError: comparison not supported with NoneType"

/-- Python chained comparison lo <= b <= hi (short-circuit, as in CPython). -/
def pyChain (lo : Option ℚ) (b : ℚ) (hi : Option ℚ) : Except String Bool := do
  let h ← pyLe lo (some b)
  if h then pyLe (some b) hi else pure false

/-- src/criteria.py _aggregate: reduce per-page values with a mode string;
empty input yields 0, an unknown mode falls back to min. -/
def aggregate (values : List ℚ) (mode : String) : ℚ :=
  match values with
  | [] => 0
  | x :: xs =>
    if mode = "min" then xs.foldl Min.min x
    else if mode = "max" then xs.foldl Max.max x
    else if mode = "avg" then (x :: xs).sum / ((x :: xs).length : ℚ)
    else xs.foldl Min.min x

/-- Python int() truncation toward zero. -/
def intTrunc (q : ℚ) : ℤ := if q < 0 then -(Int.floor (-q)) else Int.floor q

/-- Models Python float formatting with two decimals, used inside reason
strings; the value is first scaled by 100 and rounded. -/
def fmt2 (q : ℚ) : String :=
  let n : ℤ := round (q * 100)
  let ip := toString (n.natAbs / 100)
  let fr := n.natAbs % 100
  let frs := if fr < 10 then "0" ++ toString fr else toString fr
  (if n < 0 then "-" else "") ++ ip ++ "." ++ frs

/-- One extracted page, abstracted to the scalar metric values the engine
reads from it.  Metric computations that can raise in Python
(numpy/cv2 pipelines without an internal try/except) are Except-valued;
calculate_brightness_with_trim, detect_watermark_fft and
estimate_dpi_from_image catch internally and always return a value. -/
structure PageM where
  contentRatio : Except String ℚ
  brightness : ℚ
  blurVar : Except String ℚ
  skew : Except String ℚ
  watermark : ℚ
  entropy : Except String ℚ
  noisePerc : Except String ℚ
  metaDpi : ℚ
  estDpi : ℚ

/-- The fixed facts about one document on disk that the engine consults:
its path, the optional declared format, the (already lowercased) filename
extension, the raster extraction outcome as a function of the resolved
format and requested dpi, and the fitz-recomputed dpi list used by the
resolution branch for PDFs lacking metadata dpi. -/
structure DocCtx where
  path : String
  doc_format : Option String
  ext : String
  rawExtract : String → ℤ → Except String (List PageM)
  pdfDpis : Except String (List ℚ)

/-- src/criteria.py _get_images_from_path: lowercases the format, dispatches
extraction, and wraps any extraction error in a ValueError message. -/
def _get_images_from_path (d : DocCtx) (fmt : String) (dpi : ℤ) :
    Except String (List PageM) :=
  match d.rawExtract fmt.toLower dpi with
  | .ok imgs => .ok imgs
  | .error e => .error ("Failed to extract images from " ++ d.path ++ ": " ++ e)

/-- src/criteria.py lines 211-218: the resolution branch looks up the first
text_density criterion in the run's criteria list for its min_percent
(1.0 when the criterion or its threshold is absent; the field itself may
still be None). -/
def findTextDensityMin (cl : List CriteriaConfig) : Option ℚ :=
  match cl.find? (fun c => c.name = "text_density") with
  | some c =>
    match c.threshold with
    | some t => t.min_percent
    | none => some 1
  | none => some 1

/-- src/criteria.py lines 180-187: the dpi requested from the raster
provider comes from the process-global CRITERIA list's resolution entry
(int() of its min_dpi, raising on None), defaulting to 200. -/
def min_dpi_to_extract (G : List CriteriaConfig) : Except String ℤ :=
  match G.find? (fun c => c.name = "resolution") with
  | some c =>
    match c.threshold with
    | some t =>
      match t.min_dpi with
      | some q => .ok (intTrunc q)
      | none => .error "TypeError: int() argument must not be NoneType"
    | none => .ok 200
  | none => .ok 200

/-- images[0] for the resolution branch's estimate_dpi_from_image call:
Python raises IndexError on an empty list (unreachable in the engine,
which returns early when extraction yields no pages). -/
def firstPageEst (pages : List PageM) : Except String ℚ :=
  match pages with
  | [] => .error "IndexError: list index out of range"
  | p :: _ => .ok p.estDpi

/-- Outcome of one criterion's check: pass, skip (the resolution branch's
continue on near-blank documents), or fail with a reason string. -/
inductive CheckOutcome where
  | pass
  | skip
  | fail (reason : String)
deriving DecidableEq

/-- src/criteria.py lines 233-238: the tail of the resolution branch once
the per-page dpi list is known — aggregate with min, compare against
min_dpi, fall back to the content-based estimate of the first page. -/
def resolutionTail (pages : List PageM) (dpis : List ℚ) (mp : Option ℚ) :
    Except String CheckOutcome := do
  let low ← pyLt (some (aggregate dpis "min")) mp
  if low then do
    let est ← firstPageEst pages
    let low2 ← pyLt (some est) mp
    if low2 then
      Except.ok (.fail ("Resolution too low (metadata_dpi: " ++
        fmt2 (aggregate dpis "min") ++ ", estimated_dpi: " ++
        fmt2 est ++ ")"))
    else Except.ok .pass
  else Except.ok .pass

/-- src/criteria.py lines 197-306: the body of one loop iteration of
run_all_checks_for_document, computing pass_check and reason for one
criterion.  clFull is the full criteria list (consulted by the resolution
branch's text_density lookup), pages the extracted pages, crs the
precomputed per-page content ratios, fmt the resolved document format. -/
def checkCriterion (d : DocCtx) (clFull : List CriteriaConfig)
    (pages : List PageM) (crs : List ℚ) (fmt : String) (c : CriteriaConfig) :
    Except String CheckOutcome :=
  let t := c.threshold.getD {}
  if c.name = "file_integrity" then .ok .pass
  else if c.name = "resolution" then do
    let skip ← pyLt (some (aggregate crs "avg")) (findTextDensityMin clFull)
    if skip then .ok .skip
    else do
      let metaDpis := pages.map (fun p => p.metaDpi)
      let dpis ←
        if (!metaDpis.all (fun q => decide (q ≠ 0))) && fmt = "pdf" then
          d.pdfDpis
        else pure metaDpis
      resolutionTail pages dpis t.min_dpi
  else if c.name = "brightness" then do
    let bs := pages.map (fun p => p.brightness)
    let ok ← pyChain t.min (aggregate bs "avg") t.max
    if ok then .ok .pass else .ok (.fail "Brightness out of range")
  else if c.name = "blur" then do
    let vs ← pages.mapM (fun p => p.blurVar)
    let low ← pyLt (some (aggregate vs "min")) t.min_variance
    if low then
      .ok (.fail ("Image too blurry (variance: " ++ fmt2 (aggregate vs "min") ++ ")"))
    else .ok .pass
  else if c.name = "skew" then do
    let ss ← pages.mapM (fun p => p.skew)
    let agg := aggregate (ss.map (fun s => |s|)) "max"
    let high ← pyLt t.max_deg (some agg)
    if high then .ok (.fail "Skew angle too large") else .ok .pass
  else if c.name = "watermark" then do
    let wsc := pages.map (fun p => p.watermark)
    let agg := aggregate wsc "max"
    let high ← pyLt t.max_overlap (some agg)
    if high then
      .ok (.fail ("Watermark interference too high (FFT score: " ++ fmt2 agg ++ ")"))
    else .ok .pass
  else if c.name = "text_density" then do
    let agg := aggregate crs c.aggregate_mode
    let ok ← pyChain t.min_percent agg t.max_percent
    if ok then .ok .pass
    else .ok (.fail ("Text density out of range (" ++ fmt2 agg ++ "%)"))
  else if c.name = "noise" then do
    let ns ← pages.mapM (fun p => p.noisePerc)
    let mx := aggregate ns "max"
    let high ← pyLt t.max_percent (some mx)
    if high then
      .ok (.fail ("Noise level too high (max: " ++ fmt2 mx ++ "%)"))
    else .ok .pass
  else if c.name = "compression" then do
    let es ← pages.mapM (fun p => p.entropy)
    let mn := aggregate es "min"
    let low ← pyLt (some mn) t.min_entropy
    if low then
      .ok (.fail ("Compression artifact detected (min_entropy: " ++ fmt2 mn ++ ")"))
    else .ok .pass
  else if c.name = "missing_pages" then do
    let mn := aggregate crs "min"
    let low ← pyLt (some mn) t.min_content_ratio
    if low then
      .ok (.fail ("Page may be missing or blank (content ratio: " ++ fmt2 mn ++ "%)"))
    else .ok .pass
  else .ok .pass

/-- src/criteria.py lines 197-319: the criteria loop with its accumulator
state (is_accepted, reasons, warnings); a failing required criterion sets
accepted to false, appends its reason and breaks; a failing recommended
criterion appends its reason; a failing warning criterion appends to
warnings; an exception propagates to the caller. -/
def checksLoop (d : DocCtx) (clFull : List CriteriaConfig)
    (pages : List PageM) (crs : List ℚ) (fmt : String) :
    List CriteriaConfig → Bool → List String → List String →
    Except String (Bool × List String × List String)
  | [], acc, rs, ws => .ok (acc, rs, ws)
  | c :: rest, acc, rs, ws => do
    let oc ← checkCriterion d clFull pages crs fmt c
    match oc with
    | .pass => checksLoop d clFull pages crs fmt rest acc rs ws
    | .skip => checksLoop d clFull pages crs fmt rest acc rs ws
    | .fail reason =>
      match c.type with
      | .required => .ok (false, rs ++ [reason], ws)
      | .recommended => checksLoop d clFull pages crs fmt rest acc (rs ++ [reason]) ws
      | .warning => checksLoop d clFull pages crs fmt rest acc rs (ws ++ [reason])

/-- The criteria loop instrumented with the list of names of the criteria
whose check body actually ran (i.e. whose metrics were computed); it
otherwise mirrors checksLoop exactly. -/
def checksLoopEval (d : DocCtx) (clFull : List CriteriaConfig)
    (pages : List PageM) (crs : List ℚ) (fmt : String) :
    List CriteriaConfig → Bool → List String → List String →
    Except String ((Bool × List String × List String) × List String)
  | [], acc, rs, ws => .ok ((acc, rs, ws), [])
  | c :: rest, acc, rs, ws => do
    let oc ← checkCriterion d clFull pages crs fmt c
    match oc with
    | .pass =>
      (fun p => (p.1, c.name :: p.2)) <$>
        checksLoopEval d clFull pages crs fmt rest acc rs ws
    | .skip =>
      (fun p => (p.1, c.name :: p.2)) <$>
        checksLoopEval d clFull pages crs fmt rest acc rs ws
    | .fail reason =>
      match c.type with
      | .required => .ok ((false, rs ++ [reason], ws), [c.name])
      | .recommended =>
        (fun p => (p.1, c.name :: p.2)) <$>
          checksLoopEval d clFull pages crs fmt rest acc (rs ++ [reason]) ws
      | .warning =>
        (fun p => (p.1, c.name :: p.2)) <$>
          checksLoopEval d clFull pages crs fmt rest acc rs (ws ++ [reason])

/-- src/criteria.py lines 177-178: the declared format, or the (lowercased)
path extension when no format is declared. -/
def resolvedFormat (d : DocCtx) : String :=
  match d.doc_format with
  | none => d.ext
  | some f => f

/-- src/criteria.py lines 175-324: the body of the outer try block of
run_all_checks_for_document — format resolution, dpi hint from the global
CRITERIA list, extraction, the empty-extraction early return, the
content-ratio precomputation, and the criteria loop. -/

def runBody (G : List CriteriaConfig) (d : DocCtx) (cl : List CriteriaConfig) :
    Except String (Bool × List String × List String) := do
  let fmt := resolvedFormat d
  let mdpi ← min_dpi_to_extract G
  let pages ← _get_images_from_path d fmt mdpi
  if pages.isEmpty then
    return (false, ["No images could be extracted from the document."], [])
  let crs ← pages.mapM (fun p => p.contentRatio)
  checksLoop d cl pages crs fmt cl true [] []

/-- src/criteria.py run_all_checks_for_document: the outer except turns any
uncaught exception into a rejection with a single critical-error reason
and empty warnings. -/
def run_all_checks_for_document (G : List CriteriaConfig) (d : DocCtx)
    (cl : List CriteriaConfig) : Bool × List String × List String :=
  match runBody G d cl with
  | .ok r => r
  | .error e => (false, ["Critical error during evaluation: " ++ e], [])

/-! ### Pixel-level model of calculate_brightness_with_trim

A grayscale page is a list of rows of pixel intensities (0..255), the
direct model of a PIL mode-L image. -/

/-- All cells of a grid as (row, col, value) triples. -/
def gridCells (g : List (List ℕ)) : List (ℕ × ℕ × ℕ) :=
  (g.enum.map (fun rc => rc.2.enum.map (fun cv => (rc.1, cv.1, cv.2)))).flatten

/-- PIL Image.getbbox on the mode-1 image whose nonzero cells are those
whose source pixel satisfies p: the tightest (left, upper, right, lower)
box — right and lower exclusive — containing them, or none. -/
def getbbox (g : List (List ℕ)) (p : ℕ → Bool) : Option (ℕ × ℕ × ℕ × ℕ) :=
  match (gridCells g).filter (fun t => p t.2.2) with
  | [] => none
  | t :: ts =>
    let rows := (t :: ts).map (fun x => x.1)
    let cols := (t :: ts).map (fun x => x.2.1)
    some (cols.foldl Min.min t.2.1, rows.foldl Min.min t.1,
          cols.foldl Max.max t.2.1 + 1, rows.foldl Max.max t.1 + 1)

/-- PIL Image.crop with box (left, upper, right, lower). -/
def cropGrid (g : List (List ℕ)) (b : ℕ × ℕ × ℕ × ℕ) : List (List ℕ) :=
  ((g.drop b.2.1).take (b.2.2.2 - b.2.1)).map
    (fun row => (row.drop b.1).take (b.2.2.1 - b.1))

/-- PIL ImageStat.Stat(img).mean[0]: average pixel intensity. -/
def gridMean (g : List (List ℕ)) : ℚ :=
  let n := (g.map (fun r => r.length)).sum
  if n = 0 then 0 else (((g.map (fun r => r.sum)).sum : ℕ) : ℚ) / (n : ℚ)

/-- src/criteria.py calculate_brightness_with_trim: the point lambda maps
pixels below 220 to 0 and the rest to 255, so the mode-1 image's nonzero
cells are the NEAR-WHITE (≥ 220) pixels; the function crops to their
bounding box (whole-page mean when there is none) and averages. -/
def calculate_brightness_with_trim (g : List (List ℕ)) : ℚ :=
  match getbbox g (fun v => decide (220 ≤ v)) with
  | none => gridMean g
  | some b => gridMean (cropGrid g b)

/-- Modelled from the spec: the brightness metric as the spec words it —
mean intensity restricted to the tightest rectangle containing the
non-near-white (content, intensity below 220) pixels, falling back to the
whole-page mean when no content box exists.  Declared for comparison with
calculate_brightness_with_trim. -/
def brightness_content_box_spec (g : List (List ℕ)) : ℚ :=
  match getbbox g (fun v => decide (v < 220)) with
  | none => gridMean g
  | some b => gridMean (cropGrid g b)

/-! ### Worker and pipeline (src/document_assessor/evaluator.py) -/

/-- The Document record.  document_assessor.models is not in the source
tree; fields follow the spec's Document data model (src/models.py agrees
on the fields it declares, the evaluation-result fields reasons/warnings
are taken from the spec). -/
structure Document where
  documentID : String
  documentType : Option String := none
  documentFormat : Option String := none
  documentPath : String := ""
  requiresOCR : Bool := false
  isAccepted : Option Bool := none
  reasons : List String := []
  warnings : List String := []
deriving DecidableEq

/-- The DocumentBatch record (spec data model / src/models.py). -/
structure DocumentBatch where
  customerID : String
  transactionID : Option String := none
  documents : List Document
deriving DecidableEq

/-- src/document_assessor/evaluator.py evaluate_document_worker.  The
engine it calls (document_assessor.criteria.run_all_checks_for_document,
a module not in the source tree) is passed as a parameter; the worker
returns (true, [], []) without consulting it when requiresOCR is false,
forwards its result otherwise, and converts an exception escaping the
engine call into a rejection.  The soft timeout is only logged and never
alters the returned result. -/
def evaluate_document_worker
    (engine : String → Option String → List CriteriaConfig →
      Except String (Bool × List String × List String))
    (doc : Document) (criteria_list : List CriteriaConfig)
    (timeout_seconds : ℚ) : Bool × List String × List String :=
  if !doc.requiresOCR then (true, [], [])
  else
    match engine doc.documentPath doc.documentFormat criteria_list with
    | .ok r => r
    | .error e => (false, ["Unexpected error during evaluation: " ++ e], [])

/-- The run-level metrics dict built by run_pipeline. -/
structure RunMetrics where
  total_docs : ℕ := 0
  accepted_docs : ℕ := 0
  rejected_docs : ℕ := 0
  rejection_summary : List (String × ℕ) := []
  rejected_documents : List (String × List String) := []
deriving DecidableEq

/-- Python dict assignment m[k] = v: overwrite in place when the key is
present (keeping its position), append otherwise. -/
def dictSet (m : List (String × Document)) (k : String) (v : Document) :
    List (String × Document) :=
  if (m.find? (fun p => p.1 = k)).isSome then
    m.map (fun p => if p.1 = k then (k, v) else p)
  else m ++ [(k, v)]

/-- Python dict lookup. -/
def dictGet? (m : List (String × Document)) (k : String) : Option Document :=
  (m.find? (fun p => p.1 = k)).map (fun p => p.2)

/-- evaluator.py lines 55-57: the id-keyed document dict flattened across
all batches. -/
def buildAllDocs (batches : List DocumentBatch) : List (String × Document) :=
  ((batches.map (fun b => b.documents)).flatten).foldl
    (fun m d => dictSet m d.documentID d) []

/-- Python rejection_summary[r] = rejection_summary.get(r, 0) + 1. -/
def bumpSummary (s : List (String × ℕ)) (r : String) : List (String × ℕ) :=
  if (s.find? (fun p => p.1 = r)).isSome then
    s.map (fun p => if p.1 = r then (p.1, p.2 + 1) else p)
  else s ++ [(r, 1)]

/-- evaluator.py lines 83-111: how one completed future updates its
document object — a result assigns isAccepted/reasons/warnings; a future
that raised assigns isAccepted = false and a critical-processing-error
reason, leaving warnings untouched. -/
def applyResult (doc : Document)
    (r : Except String (Bool × List String × List String)) : Document :=
  match r with
  | .ok (a, rs, ws) =>
    { doc with isAccepted := some a, reasons := rs, warnings := ws }
  | .error e =>
    { doc with isAccepted := some false,
               reasons := ["Critical processing error: " ++ e] }

/-- evaluator.py lines 91-121: the metrics fold for one completed task. -/
def foldMetrics (m : RunMetrics) (id : String)
    (r : Except String (Bool × List String × List String)) : RunMetrics :=
  match r with
  | .ok (a, rs, _) =>
    if a then
      { m with total_docs := m.total_docs + 1,
               accepted_docs := m.accepted_docs + 1 }
    else
      { m with total_docs := m.total_docs + 1,
               rejected_docs := m.rejected_docs + 1,
               rejected_documents := m.rejected_documents ++ [(id, rs)],
               rejection_summary := rs.foldl bumpSummary m.rejection_summary }
  | .error e =>
    let rs := ["Critical processing error: " ++ e]
    { m with total_docs := m.total_docs + 1,
             rejected_docs := m.rejected_docs + 1,
             rejected_documents := m.rejected_documents ++ [(id, rs)],
             rejection_summary := rs.foldl bumpSummary m.rejection_summary }

/-- One iteration of the as_completed collection loop (evaluator.py lines
79-121) for the future of document id: look the document up in the
id-keyed store, apply the worker outcome to it, fold the metrics.  Ids
delivered by as_completed always belong to the store, so the none branch
is unreachable in any run the theorems consider. -/
def processOne
    (outcome : String → Except String (Bool × List String × List String))
    (st : List (String × Document) × RunMetrics) (id : String) :
    List (String × Document) × RunMetrics :=
  match dictGet? st.1 id with
  | none => st
  | some doc =>
    (dictSet st.1 id (applyResult doc (outcome id)),
     foldMetrics st.2 id (outcome id))

/-- evaluator.py run_pipeline, its observable part: build the id-keyed
document set, process each worker outcome in completion order, rebuild
the original batch structure from the updated documents (batch-level
fields untouched) and return it with the run metrics.  outcome gives each
document id's worker result, with .error modelling an exception raised at
the future boundary; order is the completion order that as_completed
happened to deliver. -/
def run_pipeline (batches : List DocumentBatch)
    (outcome : String → Except String (Bool × List String × List String))
    (order : List String) : List DocumentBatch × RunMetrics :=
  let all_docs := buildAllDocs batches
  let st := order.foldl (processOne outcome) (all_docs, {})
  let final := batches.map (fun b =>
    { b with documents := b.documents.map (fun d =>
        (dictGet? st.1 d.documentID).getD d) })
  (final, st.2)

/-! ### PDF page extraction (src/document_assessor/handlers/pdf_handler.py) -/

/-- pdf_handler.py lines 39-86: the page loop; a page whose rendering
raises is skipped, unless no page has succeeded yet, in which case a
RuntimeError aborts extraction. -/
def pdfLoop {α : Type} : List (Except String α) → List α → Except String (List α)
  | [], acc => .ok acc
  | p :: rest, acc =>
    match p with
    | .ok img => pdfLoop rest (acc ++ [img])
    | .error e =>
      if acc.isEmpty then
        .error ("Failed to extract even the first page: " ++ e)
      else pdfLoop rest acc

/-- pdf_handler.py get_images_from_pdf: the opened document is the list of
its pages' render outcomes (each page yields an image or raises); at most
actual_max_pages = min(page count, max_pages, 3) pages are processed, and
an error escaping the loop is re-raised as a ValueError with the same
message. -/
def get_images_from_pdf {α : Type} (doc : List (Except String α))
    (max_pages : ℕ) : Except String (List α) :=
  let actual := Min.min (Min.min doc.length max_pages) 3
  pdfLoop (doc.take actual) []

/-! ### Observation helpers and concrete instances used in theorems -/

/-- The accepted flag of an engine result, false when the computation
raised (the outer except converts an exception into a rejection). -/
def acceptedOf (r : Except String (Bool × List String × List String)) : Bool :=
  match r with
  | .ok p => p.1
  | .error _ => false

/-- Whether a check outcome leaves a criterion of the given type
acceptable: it must not raise and must not be a failure of a required
criterion. -/
def outcomeOk (ty : CriteriaType) (r : Except String CheckOutcome) : Bool :=
  match r with
  | .ok (.fail _) => !(ty = .required : Bool)
  | .ok _ => true
  | .error _ => false

/-- Whether one criterion leaves the document acceptable. -/
def critOk (d : DocCtx) (clF : List CriteriaConfig) (pages : List PageM)
    (crs : List ℚ) (fmt : String) (c : CriteriaConfig) : Bool :=
  outcomeOk c.type (checkCriterion d clF pages crs fmt c)

/-- A concrete page record with every metric available, for witnesses. -/
def mkPage (cr b v : ℚ) : PageM :=
  { contentRatio := .ok cr, brightness := b, blurVar := .ok v,
    skew := .ok 0, watermark := 0, entropy := .ok 8, noisePerc := .ok 0,
    metaDpi := 100, estDpi := 100 }

/-- A concrete document context whose extraction yields the given pages,
for witnesses. -/
def mkCtx (pages : List PageM) : DocCtx :=
  { path := "doc.pdf", doc_format := some "pdf", ext := "pdf",
    rawExtract := fun _ _ => .ok pages, pdfDpis := .ok [] }

/-- A page whose blur metric computation raises, for the exception
scenarios. -/
def boomPage : PageM :=
  { contentRatio := .ok 50, brightness := 10, blurVar := .error "boom",
    skew := .ok 5, watermark := 0, entropy := .ok 8, noisePerc := .ok 0,
    metaDpi := 100, estDpi := 100 }

/-! ### Helper lemmas -/

@[simp] theorem exceptPure {ε α : Type} (a : α) :
    (pure a : Except ε α) = .ok a := rfl

@[simp] theorem exceptBind_ok {ε α β : Type} (a : α) (f : α → Except ε β) :
    (Except.ok a >>= f) = f a := rfl

@[simp] theorem exceptBind_error {ε α β : Type} (e : ε) (f : α → Except ε β) :
    ((Except.error e : Except ε α) >>= f) = .error e := rfl

@[simp] theorem exceptFunctorMap {ε α β : Type} (f : α → β) (x : Except ε α) :
    (f <$> x) = x.map f := rfl

@[simp] theorem exceptMap_map {ε α β γ : Type} (f : α → β) (g : β → γ)
    (x : Except ε α) : (x.map f).map g = x.map (fun a => g (f a)) := by
  cases x <;> rfl

@[simp] theorem exceptMap_id {ε α : Type} (x : Except ε α) :
    x.map (fun a => a) = x := by
  cases x <;> rfl

@[simp] theorem exceptMap_ok {ε α β : Type} (f : α → β) (a : α) :
    (Except.ok a : Except ε α).map f = .ok (f a) := rfl

@[simp] theorem exceptMap_error {ε α β : Type} (f : α → β) (e : ε) :
    (Except.error e : Except ε α).map f = .error e := rfl

/-- The instrumented loop agrees with the plain loop on the result. -/
theorem checksLoopEval_fst (d : DocCtx) (clF : List CriteriaConfig)
    (pages : List PageM) (crs : List ℚ) (fmt : String)
    (l : List CriteriaConfig) (acc : Bool) (rs ws : List String) :
    (checksLoopEval d clF pages crs fmt l acc rs ws).map (fun p => p.1) =
      checksLoop d clF pages crs fmt l acc rs ws := by
  induction l generalizing acc rs ws with
  | nil => rfl
  | cons c rest ih =>
    simp only [checksLoopEval, checksLoop]
    cases hc : checkCriterion d clF pages crs fmt c with
    | error e => simp
    | ok oc =>
      cases oc with
      | pass => simp [ih]
      | skip => simp [ih]
      | fail reason => cases c.type <;> simp [ih]

/-- pdfLoop can only grow the accumulator by the number of remaining pages. -/
theorem pdfLoop_length {α : Type} (l : List (Except String α)) (acc r : List α)
    (h : pdfLoop l acc = .ok r) : r.length ≤ acc.length + l.length := by
  induction l generalizing acc with
  | nil =>
    simp only [pdfLoop, Except.ok.injEq] at h
    simp [← h]
  | cons p rest ih =>
    cases p with
    | ok img =>
      have h2 := ih (acc ++ [img]) h
      have h3 : (acc ++ [img]).length = acc.length + 1 := by simp
      rw [h3] at h2
      simp only [List.length_cons]
      omega
    | error e =>
      simp only [pdfLoop] at h
      by_cases hacc : acc.isEmpty
      · simp [hacc] at h
      · simp only [hacc, Bool.false_eq_true, if_false] at h
        have := ih acc h
        simp only [List.length_cons]
        omega

/-! ### C2 -/

/-- C2: for every document with requiresOCR = false,
evaluate_document_worker returns (accepted = true, reasons = [],
warnings = []) immediately, for every engine (hence without invoking the
criteria evaluation engine), criteria list, and timeout value. -/
theorem C2_worker_skips_non_ocr
    (engine : String → Option String → List CriteriaConfig →
      Except String (Bool × List String × List String))
    (doc : Document) (cl : List CriteriaConfig) (t : ℚ)
    (h : doc.requiresOCR = false) :
    evaluate_document_worker engine doc cl t = (true, [], []) := by
  simp [evaluate_document_worker, h]

/-- Witness for C2 at a concrete document and an engine that would reject
everything: the worker still accepts without consulting it. -/
theorem C2_worker_skips_non_ocr_witness :
    ({ documentID := "d1", documentPath := "a.pdf" } : Document).requiresOCR
        = false ∧
    evaluate_document_worker (fun _ _ _ => .ok (false, ["bad"], ["w"]))
      { documentID := "d1", documentPath := "a.pdf" } [] 60 = (true, [], []) :=
  ⟨rfl, C2_worker_skips_non_ocr _ _ _ _ rfl⟩

/-! ### C10 -/

/-- C10: get_images_from_pdf never returns more than 3 page images
regardless of max_pages — it processes at most min(page count, max_pages,
3) pages — and its result is unchanged by any modification of the
document beyond its first three pages (lengths being equal), so defects
confined to later pages cannot influence the extracted images and hence
no criterion's verdict. -/
theorem C10_pdf_page_cap {α : Type} (doc doc2 : List (Except String α))
    (m : ℕ) (imgs : List α)
    (h : get_images_from_pdf doc m = .ok imgs)
    (hlen : doc2.length = doc.length) (htake : doc2.take 3 = doc.take 3) :
    imgs.length ≤ 3 ∧
    imgs.length ≤ Min.min (Min.min doc.length m) 3 ∧
    get_images_from_pdf doc2 m = .ok imgs := by
  have hact : Min.min (Min.min doc.length m) 3 ≤ 3 := min_le_right _ _
  have h1 : imgs.length ≤ Min.min (Min.min doc.length m) 3 := by
    have h2 := pdfLoop_length _ _ _ h
    simp only [List.length_nil, Nat.zero_add] at h2
    refine le_trans h2 ?_
    simp [List.length_take]
  refine ⟨le_trans h1 hact, h1, ?_⟩
  have htk : doc2.take (Min.min (Min.min doc.length m) 3) =
      doc.take (Min.min (Min.min doc.length m) 3) := by
    have e2 : doc2.take (Min.min (Min.min doc.length m) 3) =
        (doc2.take 3).take (Min.min (Min.min doc.length m) 3) := by
      rw [List.take_take, min_eq_left hact]
    have e1 : doc.take (Min.min (Min.min doc.length m) 3) =
        (doc.take 3).take (Min.min (Min.min doc.length m) 3) := by
      rw [List.take_take, min_eq_left hact]
    rw [e2, e1, htake]
  simp only [get_images_from_pdf] at h ⊢
  rw [hlen, htk]
  exact h

/-- Witness for C10: a 5-page PDF document requested at max_pages = 5
yields exactly its first 3 pages, and the result ignores a change to the
later pages. -/
theorem C10_pdf_page_cap_witness :
    get_images_from_pdf
        [.ok 1, .ok 2, .ok 3, .ok 4, .ok 5] 5 = .ok ([1, 2, 3] : List ℕ) ∧
    ([.ok 1, .ok 2, .ok 3, .error "blank", .error "x"] :
        List (Except String ℕ)).length =
      ([.ok 1, .ok 2, .ok 3, .ok 4, .ok 5] : List (Except String ℕ)).length ∧
    ([1, 2, 3] : List ℕ).length ≤ 3 ∧
    get_images_from_pdf
        [.ok 1, .ok 2, .ok 3, .error "blank", .error "x"] 5 =
      .ok ([1, 2, 3] : List ℕ) := by
  have h : get_images_from_pdf
      [.ok 1, .ok 2, .ok 3, .ok 4, .ok 5] 5 = .ok ([1, 2, 3] : List ℕ) := rfl
  refine ⟨h, rfl, ?_, ?_⟩
  · exact (C10_pdf_page_cap
      [.ok 1, .ok 2, .ok 3, .ok 4, .ok 5]
      [.ok 1, .ok 2, .ok 3, .error "blank", .error "x"] 5 _ h rfl rfl).1
  · exact (C10_pdf_page_cap
      [.ok 1, .ok 2, .ok 3, .ok 4, .ok 5]
      [.ok 1, .ok 2, .ok 3, .error "blank", .error "x"] 5 _ h rfl rfl).2.2

/-! ### C6 -/

/-- C6 (divergence of the code from the claim): on the one-row page
[255, 0, 255] — white, black, white — the tightest rectangle containing
the non-near-white pixels is the single black pixel, whose mean is 0
(the value brightness_content_box_spec computes, per the claim's words),
but calculate_brightness_with_trim computes the bounding box of the
NEAR-WHITE pixels (its point lambda maps content to 0, i.e. to the
zero pixels getbbox ignores), crops to the whole row and returns 170. -/
theorem C6_brightness_trim_divergence :
    calculate_brightness_with_trim [[255, 0, 255]] = 170 ∧
    brightness_content_box_spec [[255, 0, 255]] = 0 := by
  constructor
  · have hbb : getbbox [[255, 0, 255]] (fun v => decide (220 ≤ v)) =
        some (0, 0, 3, 1) := by decide
    have hcrop : cropGrid [[255, 0, 255]] (0, 0, 3, 1) = [[255, 0, 255]] := by
      decide
    rw [calculate_brightness_with_trim, hbb]
    show gridMean (cropGrid [[255, 0, 255]] (0, 0, 3, 1)) = 170
    rw [hcrop]
    simp only [gridMean, List.map_cons, List.map_nil, List.sum_cons,
      List.sum_nil, List.length_cons, List.length_nil]
    norm_num
  · have hbb : getbbox [[255, 0, 255]] (fun v => decide (v < 220)) =
        some (1, 0, 2, 1) := by decide
    have hcrop : cropGrid [[255, 0, 255]] (1, 0, 2, 1) = [[0]] := by decide
    rw [brightness_content_box_spec, hbb]
    show gridMean (cropGrid [[255, 0, 255]] (1, 0, 2, 1)) = 0
    rw [hcrop]
    simp only [gridMean, List.map_cons, List.map_nil, List.sum_cons,
      List.sum_nil, List.length_cons, List.length_nil]
    norm_num

/-! ### C4 -/

/-- C4 (amended): for every document context and criteria list, when the
dpi hint succeeds and raster extraction returns no pages or raises,
run_all_checks_for_document returns accepted = false with exactly one
reason and empty warnings, and the result does not depend on the criteria
list (no criterion is evaluated); the reason is "No images could be
extracted from the document." in the no-pages case and "Critical error
during evaluation: Failed to extract images from <path>: <detail>" in
the raising case — neither begins with "extraction failed:". -/
theorem C4_extraction_failure_terminal (G : List CriteriaConfig) (d : DocCtx)
    (cl : List CriteriaConfig) (k : ℤ) (e : String)
    (hk : min_dpi_to_extract G = .ok k) :
    (d.rawExtract (resolvedFormat d).toLower k = .ok [] →
      run_all_checks_for_document G d cl =
        (false, ["No images could be extracted from the document."], [])) ∧
    (d.rawExtract (resolvedFormat d).toLower k = .error e →
      run_all_checks_for_document G d cl =
        (false,
         ["Critical error during evaluation: " ++
           ("Failed to extract images from " ++ d.path ++ ": " ++ e)],
         [])) := by
  constructor
  · intro hx
    simp [run_all_checks_for_document, runBody, _get_images_from_path, hk, hx]
  · intro hx
    simp [run_all_checks_for_document, runBody, _get_images_from_path, hk, hx]

/-- Witness for C4 at a concrete context whose extraction yields no pages:
a nonempty criteria list is supplied and still nothing of it is
evaluated. -/
theorem C4_extraction_failure_terminal_witness :
    min_dpi_to_extract [] = .ok 200 ∧
    run_all_checks_for_document [] (mkCtx [])
        [{ name := "blur", type := .required,
           threshold := some { min_variance := some 100 } }] =
      (false, ["No images could be extracted from the document."], []) :=
  ⟨rfl,
   (C4_extraction_failure_terminal [] (mkCtx [])
     [{ name := "blur", type := .required,
        threshold := some { min_variance := some 100 } }] 200 "" rfl).1 rfl⟩

/-- C4 counterexample: at a concrete document whose extraction yields no
pages, the single rejection reason is "No images could be extracted from
the document.", whose first 18 characters differ from the 18-character
prefix "extraction failed:" the claim requires — the reason does not
begin with "extraction failed:". -/
theorem C4_extraction_reason_counterexample :
    run_all_checks_for_document [] (mkCtx []) [] =
      (false, ["No images could be extracted from the document."], []) ∧
    "No images could be extracted from the document.".data.take 18 ≠
      "extraction failed:".data := by
  constructor
  · simp [run_all_checks_for_document, runBody, _get_images_from_path,
      mkCtx, min_dpi_to_extract]
  · decide

/-! ### C1 -/

/-- Criteria that pass (or skip) only prepend their names to the
instrumented loop's evaluation trace. -/
theorem checksLoopEval_append_pass (d : DocCtx) (clF : List CriteriaConfig)
    (pages : List PageM) (crs : List ℚ) (fmt : String)
    (pre l : List CriteriaConfig) (acc : Bool) (rs ws : List String)
    (hpre : ∀ c' ∈ pre, checkCriterion d clF pages crs fmt c' = .ok .pass ∨
      checkCriterion d clF pages crs fmt c' = .ok .skip) :
    checksLoopEval d clF pages crs fmt (pre ++ l) acc rs ws =
      (fun p => (p.1, pre.map (fun x => x.name) ++ p.2)) <$>
        checksLoopEval d clF pages crs fmt l acc rs ws := by
  induction pre with
  | nil => simp
  | cons c rest ih =>
    have hc := hpre c (by simp)
    have hrest : ∀ c' ∈ rest,
        checkCriterion d clF pages crs fmt c' = .ok .pass ∨
        checkCriterion d clF pages crs fmt c' = .ok .skip :=
      fun c' h => hpre c' (by simp [h])
    rcases hc with hc | hc <;> simp [checksLoopEval, hc, ih hrest]

/-- C1: in the criteria loop, a failing required criterion appends its
reason to the accumulated reasons, the accepted flag becomes false, and
iteration stops — the evaluated-criteria trace ends with that criterion,
so no later criterion of any type has its metric computed; a failing
recommended criterion appends its reason and continues with the accepted
flag untouched; a failing warning criterion appends only to warnings.
With a prefix of passing criteria before the first failing required one,
the final reasons are exactly that criterion's reason and the trace stops
there — in particular, a second failing required criterion later in the
list is never evaluated. -/
theorem C1_fail_fast (d : DocCtx) (clF : List CriteriaConfig)
    (pages : List PageM) (crs : List ℚ) (fmt : String)
    (c : CriteriaConfig) (rest pre : List CriteriaConfig) (acc : Bool)
    (rs ws : List String) (r : String)
    (hc : checkCriterion d clF pages crs fmt c = .ok (.fail r))
    (hpre : ∀ c' ∈ pre, checkCriterion d clF pages crs fmt c' = .ok .pass ∨
      checkCriterion d clF pages crs fmt c' = .ok .skip) :
    (c.type = .required →
      checksLoopEval d clF pages crs fmt (c :: rest) acc rs ws =
        .ok ((false, rs ++ [r], ws), [c.name]) ∧
      checksLoopEval d clF pages crs fmt (pre ++ c :: rest) true [] [] =
        .ok ((false, [r], []), pre.map (fun x => x.name) ++ [c.name])) ∧
    (c.type = .recommended →
      checksLoopEval d clF pages crs fmt (c :: rest) acc rs ws =
        (fun p => (p.1, c.name :: p.2)) <$>
          checksLoopEval d clF pages crs fmt rest acc (rs ++ [r]) ws) ∧
    (c.type = .warning →
      checksLoopEval d clF pages crs fmt (c :: rest) acc rs ws =
        (fun p => (p.1, c.name :: p.2)) <$>
          checksLoopEval d clF pages crs fmt rest acc rs (ws ++ [r])) := by
  refine ⟨fun ht => ⟨?_, ?_⟩, fun ht => ?_, fun ht => ?_⟩
  · simp [checksLoopEval, hc, ht]
  · rw [checksLoopEval_append_pass d clF pages crs fmt pre (c :: rest)
      true [] [] hpre]
    simp [checksLoopEval, hc, ht]
  · simp [checksLoopEval, hc, ht]
  · simp [checksLoopEval, hc, ht]

/-- Witness for C1: a passing file_integrity criterion, then a brightness
criterion that fails (mean brightness 10 below min 50), then a blur
criterion that would also fail: the loop returns rejection with only the
brightness reason, and the trace shows the blur criterion's metric was
never computed. -/
theorem C1_fail_fast_witness :
    checkCriterion (mkCtx [mkPage 50 10 200])
        [{ name := "file_integrity", type := .required },
         { name := "brightness", type := .required,
           threshold := some { min := some 50, max := some 220 } },
         { name := "blur", type := .required,
           threshold := some { min_variance := some 1000 } }]
        [mkPage 50 10 200] [50] "pdf"
        { name := "brightness", type := .required,
          threshold := some { min := some 50, max := some 220 } } =
      .ok (.fail "Brightness out of range") ∧
    checksLoopEval (mkCtx [mkPage 50 10 200])
        [{ name := "file_integrity", type := .required },
         { name := "brightness", type := .required,
           threshold := some { min := some 50, max := some 220 } },
         { name := "blur", type := .required,
           threshold := some { min_variance := some 1000 } }]
        [mkPage 50 10 200] [50] "pdf"
        [{ name := "file_integrity", type := .required },
         { name := "brightness", type := .required,
           threshold := some { min := some 50, max := some 220 } },
         { name := "blur", type := .required,
           threshold := some { min_variance := some 1000 } }]
        true [] [] =
      .ok ((false, ["Brightness out of range"], []),
           ["file_integrity", "brightness"]) := by
  have hc : checkCriterion (mkCtx [mkPage 50 10 200])
      [{ name := "file_integrity", type := .required },
       { name := "brightness", type := .required,
         threshold := some { min := some 50, max := some 220 } },
       { name := "blur", type := .required,
         threshold := some { min_variance := some 1000 } }]
      [mkPage 50 10 200] [50] "pdf"
      { name := "brightness", type := .required,
        threshold := some { min := some 50, max := some 220 } } =
      .ok (.fail "Brightness out of range") := by
    simp only [checkCriterion]
    simp only [String.reduceEq, reduceIte]
    norm_num [mkPage, pyChain, pyLe, aggregate]
  have hpre : ∀ c' ∈ [({ name := "file_integrity", type := .required } :
      CriteriaConfig)],
      checkCriterion (mkCtx [mkPage 50 10 200])
        [{ name := "file_integrity", type := .required },
         { name := "brightness", type := .required,
           threshold := some { min := some 50, max := some 220 } },
         { name := "blur", type := .required,
           threshold := some { min_variance := some 1000 } }]
        [mkPage 50 10 200] [50] "pdf" c' = .ok .pass ∨
      checkCriterion (mkCtx [mkPage 50 10 200])
        [{ name := "file_integrity", type := .required },
         { name := "brightness", type := .required,
           threshold := some { min := some 50, max := some 220 } },
         { name := "blur", type := .required,
           threshold := some { min_variance := some 1000 } }]
        [mkPage 50 10 200] [50] "pdf" c' = .ok .skip := by
    intro c' h
    simp only [List.mem_singleton] at h
    subst h
    left
    simp [checkCriterion]
  refine ⟨hc, ?_⟩
  have h := (C1_fail_fast (mkCtx [mkPage 50 10 200]) _ _ _ _ _
    [{ name := "blur", type := .required,
       threshold := some { min_variance := some 1000 } }]
    [{ name := "file_integrity", type := .required }]
    true [] [] _ hc hpre).1 rfl
  simpa using h.2

/-! ### C3 -/

/-- C3 (amended): a criterion whose metric computation raises aborts the
criteria loop with that error — discarding the reasons and warnings
accumulated from earlier criteria — and the outer handler turns the
error into (false, ["Critical error during evaluation: <detail>"], []):
the document is rejected with that single reason regardless of the
criterion's configured type, and no further criteria run. -/
theorem C3_metric_exception_rejects (G : List CriteriaConfig) (d : DocCtx)
    (clF : List CriteriaConfig) (pages : List PageM) (crs : List ℚ)
    (fmt : String) (c : CriteriaConfig) (rest : List CriteriaConfig)
    (acc : Bool) (rs ws : List String) (e : String)
    (cl : List CriteriaConfig)
    (hc : checkCriterion d clF pages crs fmt c = .error e) :
    checksLoop d clF pages crs fmt (c :: rest) acc rs ws = .error e ∧
    (runBody G d cl = .error e →
      run_all_checks_for_document G d cl =
        (false, ["Critical error during evaluation: " ++ e], [])) := by
  constructor
  · simp [checksLoop, hc]
  · intro h
    simp [run_all_checks_for_document, h]

/-- Witness for C3 at a concrete page whose blur variance computation
raises "boom": the loop aborts with the error and the document is
rejected with the single critical-error reason. -/
theorem C3_metric_exception_rejects_witness :
    checksLoop (mkCtx [boomPage])
        [{ name := "blur", type := .required,
           threshold := some { min_variance := some 1 } }]
        [boomPage] [50] "pdf"
        [{ name := "blur", type := .required,
           threshold := some { min_variance := some 1 } }]
        true [] [] = .error "boom" ∧
    run_all_checks_for_document [] (mkCtx [boomPage])
        [{ name := "blur", type := .required,
           threshold := some { min_variance := some 1 } }] =
      (false, ["Critical error during evaluation: boom"], []) := by
  have hc : checkCriterion (mkCtx [boomPage])
      [{ name := "blur", type := .required,
         threshold := some { min_variance := some 1 } }]
      [boomPage] [50] "pdf"
      { name := "blur", type := .required,
        threshold := some { min_variance := some 1 } } = .error "boom" := by
    simp only [checkCriterion]
    simp only [String.reduceEq, reduceIte]
    simp [boomPage, List.mapM, List.mapM.loop]
  have h := C3_metric_exception_rejects [] (mkCtx [boomPage])
    [{ name := "blur", type := .required,
       threshold := some { min_variance := some 1 } }]
    [boomPage] [50] "pdf"
    { name := "blur", type := .required,
      threshold := some { min_variance := some 1 } }
    [] true [] [] "boom"
    [{ name := "blur", type := .required,
       threshold := some { min_variance := some 1 } }] hc
  refine ⟨h.1, h.2 ?_⟩
  have hloop := h.1
  simp [runBody, mkCtx, min_dpi_to_extract, _get_images_from_path,
    resolvedFormat, boomPage, List.mapM, List.mapM.loop]
  exact hloop

/-- C3 counterexample: a recommended brightness criterion fails first
(appending "Brightness out of range"), a warning skew criterion fails
next (appending to warnings), then the blur criterion's metric raises —
yet the result carries only the critical-error reason and empty
warnings: the accumulated reasons and warnings are NOT retained
alongside the error reason, contradicting the claim. -/
theorem C3_reasons_discarded_counterexample :
    checkCriterion (mkCtx [boomPage])
        [{ name := "brightness", type := .recommended,
           threshold := some { min := some 50, max := some 220 } },
         { name := "skew", type := .warning,
           threshold := some { max_deg := some 0 } },
         { name := "blur", type := .required,
           threshold := some { min_variance := some 1 } }]
        [boomPage] [50] "pdf"
        { name := "brightness", type := .recommended,
          threshold := some { min := some 50, max := some 220 } } =
      .ok (.fail "Brightness out of range") ∧
    run_all_checks_for_document [] (mkCtx [boomPage])
        [{ name := "brightness", type := .recommended,
           threshold := some { min := some 50, max := some 220 } },
         { name := "skew", type := .warning,
           threshold := some { max_deg := some 0 } },
         { name := "blur", type := .required,
           threshold := some { min_variance := some 1 } }] =
      (false, ["Critical error during evaluation: boom"], []) ∧
    "Brightness out of range" ∉ ["Critical error during evaluation: boom"] := by
  refine ⟨?_, ?_, by decide⟩
  · simp only [checkCriterion]
    simp only [String.reduceEq, reduceIte]
    norm_num [boomPage, pyChain, pyLe, aggregate]
  · simp only [run_all_checks_for_document, runBody, mkCtx,
      min_dpi_to_extract, _get_images_from_path, resolvedFormat,
      checksLoop, checkCriterion]
    simp only [String.reduceEq, reduceIte]
    norm_num [boomPage, pyChain, pyLe, pyLt, aggregate, List.mapM,
      List.mapM.loop]
    rfl

/-! ### C5 -/

/-- The text_density lookup skips a head that is not named text_density. -/
theorem findTextDensityMin_cons (a : CriteriaConfig)
    (L : List CriteriaConfig) (h : ¬a.name = "text_density") :
    findTextDensityMin (a :: L) = findTextDensityMin L := by
  simp [findTextDensityMin, List.find?_cons, h]

/-- The text_density lookup is unchanged when one list entry is replaced
by an entry with the same name and threshold. -/
theorem findTextDensityMin_congr (pre post : List CriteriaConfig)
    (c c' : CriteriaConfig) (hn : c'.name = c.name)
    (ht : c'.threshold = c.threshold) :
    findTextDensityMin (pre ++ c' :: post) =
      findTextDensityMin (pre ++ c :: post) := by
  induction pre with
  | nil =>
    by_cases h : c.name = "text_density"
    · simp [findTextDensityMin, List.find?_cons, h, hn, ht]
    · rw [List.nil_append, List.nil_append,
        findTextDensityMin_cons _ _ (hn ▸ h), findTextDensityMin_cons _ _ h]
  | cons a pre ih =>
    by_cases h : a.name = "text_density"
    · simp [findTextDensityMin, List.find?_cons, h]
    · rw [List.cons_append, List.cons_append,
        findTextDensityMin_cons _ _ h, findTextDensityMin_cons _ _ h, ih]

/-- checkCriterion consults the full criteria list only through the
text_density lookup. -/
theorem checkCriterion_congr_clF (d : DocCtx)
    (clF clF' : List CriteriaConfig) (pages : List PageM) (crs : List ℚ)
    (fmt : String) (c : CriteriaConfig)
    (h : findTextDensityMin clF = findTextDensityMin clF') :
    checkCriterion d clF pages crs fmt c =
      checkCriterion d clF' pages crs fmt c := by
  simp only [checkCriterion]
  rw [h]

/-- A criterion not named text_density checks identically under any
aggregate_mode. -/
theorem checkCriterion_mode_invariant (d : DocCtx)
    (clF : List CriteriaConfig) (pages : List PageM) (crs : List ℚ)
    (fmt : String) (c : CriteriaConfig) (m : String)
    (hn : ¬c.name = "text_density") :
    checkCriterion d clF pages crs fmt { c with aggregate_mode := m } =
      checkCriterion d clF pages crs fmt c := by
  simp only [checkCriterion, hn]
  simp [hn]

/-- The criteria loop is unchanged under a change of the full list that
preserves the text_density lookup. -/
theorem checksLoop_congr_clF (d : DocCtx) (clF clF' : List CriteriaConfig)
    (pages : List PageM) (crs : List ℚ) (fmt : String)
    (h : findTextDensityMin clF = findTextDensityMin clF')
    (l : List CriteriaConfig) (acc : Bool) (rs ws : List String) :
    checksLoop d clF pages crs fmt l acc rs ws =
      checksLoop d clF' pages crs fmt l acc rs ws := by
  induction l generalizing acc rs ws with
  | nil => rfl
  | cons c rest ih =>
    simp only [checksLoop]
    rw [checkCriterion_congr_clF d clF clF' pages crs fmt c h]
    cases checkCriterion d clF' pages crs fmt c with
    | error e => rfl
    | ok oc =>
      cases oc with
      | pass => simp [ih]
      | skip => simp [ih]
      | fail r => cases c.type <;> simp [ih]

/-- The criteria loop is unchanged when one list entry is replaced by one
with the same check result and type. -/
theorem checksLoop_congr_mid (d : DocCtx) (clF : List CriteriaConfig)
    (pages : List PageM) (crs : List ℚ) (fmt : String)
    (pre post : List CriteriaConfig) (c c' : CriteriaConfig)
    (hcc : checkCriterion d clF pages crs fmt c' =
      checkCriterion d clF pages crs fmt c)
    (hty : c'.type = c.type) (acc : Bool) (rs ws : List String) :
    checksLoop d clF pages crs fmt (pre ++ c' :: post) acc rs ws =
      checksLoop d clF pages crs fmt (pre ++ c :: post) acc rs ws := by
  induction pre generalizing acc rs ws with
  | nil =>
    simp only [List.nil_append, checksLoop, hcc, hty]
  | cons a pre ih =>
    simp only [List.cons_append, checksLoop]
    cases checkCriterion d clF pages crs fmt a with
    | error e => rfl
    | ok oc =>
      cases oc with
      | pass => simp [ih]
      | skip => simp [ih]
      | fail r => cases a.type <;> simp [ih]

/-- C5 (amended): only the text_density criterion aggregates per its
configured aggregate_mode.  Changing the aggregate_mode of any criterion
not named text_density leaves the whole document verdict unchanged,
while for a text_density criterion the mode matters: on per-page content
ratios [2, 60] with bounds [5, 80], mode "min" rejects (aggregate 2) and
mode "max" accepts (aggregate 60). -/
theorem C5_aggregate_mode_only_text_density (G : List CriteriaConfig)
    (d : DocCtx) (pre post : List CriteriaConfig) (c : CriteriaConfig)
    (m : String) (hn : ¬c.name = "text_density") :
    run_all_checks_for_document G d
        (pre ++ { c with aggregate_mode := m } :: post) =
      run_all_checks_for_document G d (pre ++ c :: post) ∧
    (run_all_checks_for_document [] (mkCtx [mkPage 2 100 200, mkPage 60 100 200])
        [{ name := "text_density", type := .required,
           threshold := some { min_percent := some 5, max_percent := some 80 },
           aggregate_mode := "min" }]).1 = false ∧
    (run_all_checks_for_document [] (mkCtx [mkPage 2 100 200, mkPage 60 100 200])
        [{ name := "text_density", type := .required,
           threshold := some { min_percent := some 5, max_percent := some 80 },
           aggregate_mode := "max" }]).1 = true := by
  refine ⟨?_, ?_, ?_⟩
  · have hfd : findTextDensityMin (pre ++ { c with aggregate_mode := m } :: post) =
        findTextDensityMin (pre ++ c :: post) :=
      findTextDensityMin_congr pre post c { c with aggregate_mode := m } rfl rfl
    cases hk : min_dpi_to_extract G with
    | error e =>
      simp [run_all_checks_for_document, runBody, hk]
    | ok k =>
      cases hx : _get_images_from_path d (resolvedFormat d) k with
      | error e =>
        simp [run_all_checks_for_document, runBody, hk, hx]
      | ok pages =>
        by_cases hemp : pages.isEmpty
        · simp [run_all_checks_for_document, runBody, hk, hx, hemp]
        · cases hcrs : pages.mapM (fun p => p.contentRatio) with
          | error e =>
            simp only [run_all_checks_for_document, runBody, hk, hx, hemp,
              exceptBind_ok, exceptBind_error, Bool.false_eq_true, if_false,
              hcrs]
          | ok crs =>
            simp only [run_all_checks_for_document, runBody, hk, hx, hemp,
              exceptBind_ok, Bool.false_eq_true, if_false, hcrs]
            rw [checksLoop_congr_clF d _ _ pages crs (resolvedFormat d) hfd,
              checksLoop_congr_mid d _ pages crs (resolvedFormat d) pre post
                c { c with aggregate_mode := m }
                (checkCriterion_mode_invariant d _ pages crs
                  (resolvedFormat d) c m hn) rfl]
  · simp only [run_all_checks_for_document, runBody, mkCtx,
      min_dpi_to_extract, _get_images_from_path, resolvedFormat,
      checksLoop, checkCriterion]
    simp only [String.reduceEq, reduceIte]
    norm_num [mkPage, pyChain, pyLe, aggregate, findTextDensityMin,
      List.mapM, List.mapM.loop, List.find?, min_def, max_def]
    try simp only [String.reduceEq, reduceIte]
    try norm_num [min_def, max_def]
  · simp only [run_all_checks_for_document, runBody, mkCtx,
      min_dpi_to_extract, _get_images_from_path, resolvedFormat,
      checksLoop, checkCriterion]
    simp only [String.reduceEq, reduceIte]
    norm_num [mkPage, pyChain, pyLe, aggregate, findTextDensityMin,
      List.mapM, List.mapM.loop, List.find?, min_def, max_def]
    try simp only [String.reduceEq, reduceIte]
    try norm_num [min_def, max_def]

/-- Witness for C5: changing a blur criterion's aggregate_mode to "avg"
leaves the document verdict unchanged. -/
theorem C5_aggregate_mode_only_text_density_witness :
    ¬({ name := "blur", type := .required,
        threshold := some { min_variance := some 100 } } :
        CriteriaConfig).name = "text_density" ∧
    run_all_checks_for_document [] (mkCtx [mkPage 50 0 200])
        [{ name := "blur", type := .required,
           threshold := some { min_variance := some 100 },
           aggregate_mode := "avg" }] =
      run_all_checks_for_document [] (mkCtx [mkPage 50 0 200])
        [{ name := "blur", type := .required,
           threshold := some { min_variance := some 100 } }] := by
  refine ⟨by decide, ?_⟩
  exact (C5_aggregate_mode_only_text_density [] (mkCtx [mkPage 50 0 200])
    [] [] { name := "blur", type := .required,
            threshold := some { min_variance := some 100 } } "avg"
    (by decide)).1

/-- C5 counterexample: a brightness criterion configured with
aggregate_mode "min", on pages of brightness 0 and 200 with bounds
[100, 255].  Aggregating with min — as the claim requires — gives 0,
which fails the required criterion; the code aggregates brightness with
a hard-coded avg (here 100) and accepts the document. -/
theorem C5_brightness_ignores_mode_counterexample :
    run_all_checks_for_document []
        (mkCtx [mkPage 50 0 200, mkPage 50 200 200])
        [{ name := "brightness", type := .required,
           threshold := some { min := some 100, max := some 255 },
           aggregate_mode := "min" }] = (true, [], []) ∧
    aggregate [0, 200] "min" < 100 := by
  constructor
  · simp only [run_all_checks_for_document, runBody, mkCtx,
      min_dpi_to_extract, _get_images_from_path, resolvedFormat,
      checksLoop, checkCriterion]
    simp only [String.reduceEq, reduceIte]
    norm_num [mkPage, pyChain, pyLe, aggregate, findTextDensityMin,
      List.mapM, List.mapM.loop, List.find?, min_def, max_def]
    try simp only [String.reduceEq, reduceIte]
    try norm_num [min_def, max_def]
  · norm_num [aggregate, min_def]

/-! ### Pipeline store lemmas (for C7 and C8) -/

@[simp] theorem applyResult_documentID (doc : Document)
    (r : Except String (Bool × List String × List String)) :
    (applyResult doc r).documentID = doc.documentID := by
  cases r with
  | ok p => cases p with | mk a q => cases q <;> rfl
  | error e => rfl

theorem dictGet?_map_set (m : List (String × Document)) (k : String)
    (v : Document) (k' : String) :
    dictGet? (m.map (fun p => if p.1 = k then (k, v) else p)) k' =
      if k' = k then
        (if (m.find? (fun p => p.1 = k)).isSome then some v else none)
      else dictGet? m k' := by
  induction m with
  | nil => by_cases hk : k' = k <;> simp [dictGet?, hk]
  | cons a tl ih =>
    simp only [List.map_cons]
    by_cases ha : a.1 = k
    · rw [if_pos ha]
      by_cases hk : k' = k
      · subst hk
        simp [dictGet?, List.find?_cons, ha]
      · have hb1 : ¬((k, v).1 = k') := fun h => hk h.symm
        have hb2 : ¬(a.1 = k') := fun h => hk (h ▸ ha)
        have e1 : dictGet?
            ((k, v) :: tl.map (fun p => if p.1 = k then (k, v) else p)) k' =
            dictGet? (tl.map (fun p => if p.1 = k then (k, v) else p)) k' := by
          simp [dictGet?, List.find?_cons, hb1]
        have e2 : dictGet? (a :: tl) k' = dictGet? tl k' := by
          simp [dictGet?, List.find?_cons, hb2]
        rw [e1, e2, ih, if_neg hk, if_neg hk]
    · rw [if_neg ha]
      by_cases hk'a : a.1 = k'
      · have hk : ¬k' = k := fun h => ha (hk'a.trans h)
        simp [dictGet?, List.find?_cons, hk'a, hk]
      · have e1 : dictGet?
            (a :: tl.map (fun p => if p.1 = k then (k, v) else p)) k' =
            dictGet? (tl.map (fun p => if p.1 = k then (k, v) else p)) k' := by
          simp [dictGet?, List.find?_cons, hk'a]
        have e2 : dictGet? (a :: tl) k' = dictGet? tl k' := by
          simp [dictGet?, List.find?_cons, hk'a]
        have e3 : ((a :: tl).find? (fun p => p.1 = k)).isSome =
            (tl.find? (fun p => p.1 = k)).isSome := by
          simp [List.find?_cons, ha]
        rw [e1, e3, e2, ih]

theorem dictGet?_append_single (m : List (String × Document)) (k : String)
    (v : Document) (k' : String)
    (habs : ¬(m.find? (fun p => p.1 = k)).isSome = true) :
    dictGet? (m ++ [(k, v)]) k' =
      if k' = k then some v else dictGet? m k' := by
  induction m with
  | nil =>
    by_cases hk : k' = k
    · subst hk
      simp [dictGet?, List.find?_cons]
    · have hb : ¬((k, v).1 = k') := fun h => hk h.symm
      simp [dictGet?, List.find?_cons, hb, hk]
  | cons a tl ih =>
    have ha : ¬a.1 = k := by
      intro h
      exact habs (by simp [List.find?_cons, h])
    have habs' : ¬(tl.find? (fun p => p.1 = k)).isSome = true := by
      intro h
      exact habs (by simpa [List.find?_cons, ha] using h)
    by_cases hk'a : a.1 = k'
    · have hk : ¬k' = k := fun h => ha (hk'a.trans h)
      simp [dictGet?, List.find?_cons, hk'a, hk]
    · have e1 : dictGet? ((a :: tl) ++ [(k, v)]) k' =
          dictGet? (tl ++ [(k, v)]) k' := by
        simp [dictGet?, List.find?_cons, hk'a]
      have e2 : dictGet? (a :: tl) k' = dictGet? tl k' := by
        simp [dictGet?, List.find?_cons, hk'a]
      rw [e1, e2, ih habs']

theorem dictGet?_dictSet (m : List (String × Document)) (k : String)
    (v : Document) (k' : String) :
    dictGet? (dictSet m k v) k' =
      if k' = k then some v else dictGet? m k' := by
  simp only [dictSet]
  by_cases hpres : (m.find? (fun p => p.1 = k)).isSome = true
  · rw [if_pos hpres, dictGet?_map_set]
    simp [hpres]
  · rw [if_neg hpres, dictGet?_append_single m k v k' hpres]

theorem dictGet?_processOne
    (outcome : String → Except String (Bool × List String × List String))
    (st : List (String × Document) × RunMetrics) (id k : String) :
    dictGet? (processOne outcome st id).1 k =
      if k = id then
        (dictGet? st.1 k).map (fun doc => applyResult doc (outcome id))
      else dictGet? st.1 k := by
  simp only [processOne]
  cases hd : dictGet? st.1 id with
  | none =>
    by_cases hk : k = id
    · subst hk
      simp [hd]
    · simp [hk]
  | some doc =>
    simp only
    rw [dictGet?_dictSet]
    by_cases hk : k = id
    · subst hk
      simp [hd]
    · simp [hk]

theorem dictGet?_fold_not_mem
    (outcome : String → Except String (Bool × List String × List String))
    (order : List String) (st : List (String × Document) × RunMetrics)
    (k : String) (hk : k ∉ order) :
    dictGet? ((order.foldl (processOne outcome) st)).1 k = dictGet? st.1 k := by
  induction order generalizing st with
  | nil => rfl
  | cons a tl ih =>
    have hka : ¬k = a := fun h => hk (by simp [h])
    have hktl : k ∉ tl := fun h => hk (by simp [h])
    simp only [List.foldl_cons]
    rw [ih _ hktl, dictGet?_processOne, if_neg hka]

theorem dictGet?_fold_mem
    (outcome : String → Except String (Bool × List String × List String))
    (order : List String) (st : List (String × Document) × RunMetrics)
    (k : String) (hnd : order.Nodup) (hk : k ∈ order) :
    dictGet? ((order.foldl (processOne outcome) st)).1 k =
      (dictGet? st.1 k).map (fun doc => applyResult doc (outcome k)) := by
  induction order generalizing st with
  | nil => simp at hk
  | cons a tl ih =>
    simp only [List.foldl_cons]
    by_cases hka : k = a
    · subst hka
      have hknotl : k ∉ tl := (List.nodup_cons.mp hnd).1
      rw [dictGet?_fold_not_mem outcome tl _ k hknotl,
        dictGet?_processOne, if_pos rfl]
    · have hktl : k ∈ tl := by
        rcases List.mem_cons.mp hk with h | h
        · exact absurd h hka
        · exact h
      rw [ih _ (List.nodup_cons.mp hnd).2 hktl, dictGet?_processOne,
        if_neg hka]

theorem dictGet?_buildFold_not_mem (docs : List Document)
    (m : List (String × Document)) (k : String)
    (hk : k ∉ docs.map (fun dd => dd.documentID)) :
    dictGet? (docs.foldl (fun acc dd => dictSet acc dd.documentID dd) m) k =
      dictGet? m k := by
  induction docs generalizing m with
  | nil => rfl
  | cons a tl ih =>
    have hka : ¬k = a.documentID := fun h => hk (by simp [h])
    have hktl : k ∉ tl.map (fun dd => dd.documentID) := fun h =>
      hk (by simp; right; simpa using h)
    simp only [List.foldl_cons]
    rw [ih _ hktl, dictGet?_dictSet, if_neg hka]

theorem dictGet?_buildFold_mem (docs : List Document)
    (m : List (String × Document))
    (hnd : (docs.map (fun dd => dd.documentID)).Nodup) :
    ∀ dd ∈ docs,
      dictGet? (docs.foldl (fun acc d => dictSet acc d.documentID d) m)
        dd.documentID = some dd := by
  induction docs generalizing m with
  | nil =>
    intro dd h
    simp at h
  | cons a tl ih =>
    rw [List.map_cons] at hnd
    have hnd' := List.nodup_cons.mp hnd
    intro dd hdd
    simp only [List.foldl_cons]
    rcases List.mem_cons.mp hdd with h | h
    · subst h
      have hnotl : dd.documentID ∉ tl.map (fun x => x.documentID) := hnd'.1
      rw [dictGet?_buildFold_not_mem tl _ _ hnotl, dictGet?_dictSet,
        if_pos rfl]
    · exact ih _ hnd'.2 dd h

theorem processOne_metrics
    (outcome : String → Except String (Bool × List String × List String))
    (st : List (String × Document) × RunMetrics) (id : String)
    (hpres : (dictGet? st.1 id).isSome = true) :
    (processOne outcome st id).2.total_docs = st.2.total_docs + 1 ∧
    (processOne outcome st id).2.accepted_docs +
        (processOne outcome st id).2.rejected_docs =
      st.2.accepted_docs + st.2.rejected_docs + 1 := by
  simp only [processOne]
  cases hd : dictGet? st.1 id with
  | none => simp [hd] at hpres
  | some doc =>
    cases ho : outcome id with
    | ok p =>
      rcases p with ⟨a, rs, ws⟩
      cases a <;> simp [foldMetrics, ho] <;> omega
    | error e =>
      simp [foldMetrics, ho]
      omega

theorem metrics_fold
    (outcome : String → Except String (Bool × List String × List String))
    (order : List String) (st : List (String × Document) × RunMetrics)
    (hpres : ∀ id ∈ order, (dictGet? st.1 id).isSome = true) :
    (order.foldl (processOne outcome) st).2.total_docs =
      st.2.total_docs + order.length ∧
    (order.foldl (processOne outcome) st).2.accepted_docs +
        (order.foldl (processOne outcome) st).2.rejected_docs =
      st.2.accepted_docs + st.2.rejected_docs + order.length := by
  induction order generalizing st with
  | nil => simp
  | cons a tl ih =>
    have hpa := hpres a (by simp)
    have hptl : ∀ id ∈ tl,
        (dictGet? (processOne outcome st a).1 id).isSome = true := by
      intro id hid
      rw [dictGet?_processOne]
      by_cases h : id = a
      · subst h
        cases h3 : dictGet? st.1 id with
        | none => simp [h3] at hpa
        | some doc => simp [h3]
      · simp only [h, if_false]
        exact hpres id (by simp [hid])
    have h1 := processOne_metrics outcome st a hpa
    have h2 := ih _ hptl
    simp only [List.foldl_cons, List.length_cons]
    omega

/-- Under unique document ids, the pipeline's final output is, for any
completion order, the input batches with each document updated by its
own worker outcome. -/
theorem run_pipeline_closed_form (batches : List DocumentBatch)
    (outcome : String → Except String (Bool × List String × List String))
    (order : List String)
    (hN : (((batches.map (fun b => b.documents)).flatten).map
      (fun dd => dd.documentID)).Nodup)
    (hP : order.Perm (((batches.map (fun b => b.documents)).flatten).map
      (fun dd => dd.documentID))) :
    (run_pipeline batches outcome order).1 =
      batches.map (fun b =>
        { b with documents := b.documents.map (fun dd =>
            applyResult dd (outcome dd.documentID)) }) := by
  have hordN : order.Nodup := (hP.nodup_iff).mpr hN
  simp only [run_pipeline]
  apply List.map_congr_left
  intro b hb
  simp only [DocumentBatch.mk.injEq, true_and]
  apply List.map_congr_left
  intro dd hdd
  have hin : dd ∈ (batches.map (fun b => b.documents)).flatten :=
    List.mem_flatten.mpr ⟨b.documents, List.mem_map_of_mem _ hb, hdd⟩
  have h5 := dictGet?_buildFold_mem
    ((batches.map (fun b => b.documents)).flatten) [] hN dd hin
  have hmem_ord : dd.documentID ∈ order :=
    (hP.mem_iff).mpr (List.mem_map_of_mem _ hin)
  rw [dictGet?_fold_mem outcome order _ _ hordN hmem_ord]
  simp only [buildAllDocs] at h5 ⊢
  rw [h5]
  rfl

/-! ### C8 -/

/-- C8: under unique document ids, run_pipeline returns the batches in
input order with customerID and transactionID unchanged and each
document in its original position (ids in place); the output equals the
input batches with each document updated by its own worker outcome,
attached by document id, and is therefore identical for any two
completion orders. -/
theorem C8_output_order_independent (batches : List DocumentBatch)
    (outcome : String → Except String (Bool × List String × List String))
    (order1 order2 : List String)
    (hN : (((batches.map (fun b => b.documents)).flatten).map
      (fun dd => dd.documentID)).Nodup)
    (h1 : order1.Perm (((batches.map (fun b => b.documents)).flatten).map
      (fun dd => dd.documentID)))
    (h2 : order2.Perm (((batches.map (fun b => b.documents)).flatten).map
      (fun dd => dd.documentID))) :
    (run_pipeline batches outcome order1).1 =
      batches.map (fun b =>
        { b with documents := b.documents.map (fun dd =>
            applyResult dd (outcome dd.documentID)) }) ∧
    (run_pipeline batches outcome order1).1 =
      (run_pipeline batches outcome order2).1 ∧
    ((run_pipeline batches outcome order1).1).map (fun b => b.customerID) =
      batches.map (fun b => b.customerID) ∧
    ((run_pipeline batches outcome order1).1).map (fun b => b.transactionID) =
      batches.map (fun b => b.transactionID) ∧
    ((run_pipeline batches outcome order1).1).map
        (fun b => b.documents.map (fun dd => dd.documentID)) =
      batches.map (fun b => b.documents.map (fun dd => dd.documentID)) := by
  have hc1 := run_pipeline_closed_form batches outcome order1 hN h1
  have hc2 := run_pipeline_closed_form batches outcome order2 hN h2
  refine ⟨hc1, hc1.trans hc2.symm, ?_, ?_, ?_⟩ <;>
    simp [hc1, List.map_map, Function.comp]

/-- Witness for C8 at a two-batch input with three documents, one of whose
workers raises, and two different completion orders. -/
theorem C8_output_order_independent_witness :
    (run_pipeline
        [{ customerID := "c1", transactionID := some "t1",
           documents := [{ documentID := "d1", documentPath := "a.pdf",
                           requiresOCR := true },
                         { documentID := "d2", documentPath := "b.pdf",
                           requiresOCR := true }] },
         { customerID := "c2",
           documents := [{ documentID := "d3", documentPath := "c.pdf" }] }]
        (fun id => if id = "d2" then .error "crash" else .ok (true, [], []))
        ["d1", "d2", "d3"]).1 =
      (run_pipeline
        [{ customerID := "c1", transactionID := some "t1",
           documents := [{ documentID := "d1", documentPath := "a.pdf",
                           requiresOCR := true },
                         { documentID := "d2", documentPath := "b.pdf",
                           requiresOCR := true }] },
         { customerID := "c2",
           documents := [{ documentID := "d3", documentPath := "c.pdf" }] }]
        (fun id => if id = "d2" then .error "crash" else .ok (true, [], []))
        ["d3", "d2", "d1"]).1 ∧
    ((run_pipeline
        [{ customerID := "c1", transactionID := some "t1",
           documents := [{ documentID := "d1", documentPath := "a.pdf",
                           requiresOCR := true },
                         { documentID := "d2", documentPath := "b.pdf",
                           requiresOCR := true }] },
         { customerID := "c2",
           documents := [{ documentID := "d3", documentPath := "c.pdf" }] }]
        (fun id => if id = "d2" then .error "crash" else .ok (true, [], []))
        ["d1", "d2", "d3"]).1).map (fun b => b.customerID) = ["c1", "c2"] := by
  have h := C8_output_order_independent
    [{ customerID := "c1", transactionID := some "t1",
       documents := [{ documentID := "d1", documentPath := "a.pdf",
                       requiresOCR := true },
                     { documentID := "d2", documentPath := "b.pdf",
                       requiresOCR := true }] },
     { customerID := "c2",
       documents := [{ documentID := "d3", documentPath := "c.pdf" }] }]
    (fun id => if id = "d2" then .error "crash" else .ok (true, [], []))
    ["d1", "d2", "d3"] ["d3", "d2", "d1"]
    (by decide) (by decide) (by decide)
  exact ⟨h.2.1, by rw [h.2.2.1]; rfl⟩

/-! ### C7 -/

/-- C7: under unique document ids, if one document's worker outcome is an
exception at the future boundary, the run still completes with
total_docs equal to the number of input documents and equal to
accepted_docs + rejected_docs; the output is each input document updated
independently by its own outcome, and the failing document itself is
rejected with the critical-processing-error reason. -/
theorem C7_pipeline_fault_isolation (batches : List DocumentBatch)
    (outcome : String → Except String (Bool × List String × List String))
    (order : List String) (fid e : String)
    (hN : (((batches.map (fun b => b.documents)).flatten).map
      (fun dd => dd.documentID)).Nodup)
    (hP : order.Perm (((batches.map (fun b => b.documents)).flatten).map
      (fun dd => dd.documentID)))
    (hf : outcome fid = .error e) :
    (run_pipeline batches outcome order).2.total_docs =
      ((batches.map (fun b => b.documents)).flatten).length ∧
    (run_pipeline batches outcome order).2.total_docs =
      (run_pipeline batches outcome order).2.accepted_docs +
        (run_pipeline batches outcome order).2.rejected_docs ∧
    (run_pipeline batches outcome order).1 =
      batches.map (fun b =>
        { b with documents := b.documents.map (fun dd =>
            applyResult dd (outcome dd.documentID)) }) ∧
    (∀ b ∈ (run_pipeline batches outcome order).1, ∀ dd ∈ b.documents,
      dd.documentID = fid →
        dd.isAccepted = some false ∧
        dd.reasons = ["Critical processing error: " ++ e]) := by
  have hclosed := run_pipeline_closed_form batches outcome order hN hP
  have hpres : ∀ id ∈ order,
      (dictGet? (buildAllDocs batches, ({} : RunMetrics)).1 id).isSome
        = true := by
    intro id hid
    have hid2 := (hP.mem_iff).mp hid
    rcases List.mem_map.mp hid2 with ⟨dd, hdd, hddid⟩
    have h5 := dictGet?_buildFold_mem
      ((batches.map (fun b => b.documents)).flatten) [] hN dd hdd
    simp only [buildAllDocs]
    rw [← hddid, h5]
    rfl
  have hm := metrics_fold outcome order (buildAllDocs batches, {}) hpres
  have hrun2 : (run_pipeline batches outcome order).2 =
      (order.foldl (processOne outcome) (buildAllDocs batches, {})).2 := rfl
  refine ⟨?_, ?_, hclosed, ?_⟩
  · rw [hrun2, hm.1]
    have hlen : order.length =
        ((batches.map (fun b => b.documents)).flatten).length := by
      rw [hP.length_eq, List.length_map]
    simp [hlen]
  · rw [hrun2, hm.1, hm.2]
    simp
  · intro b hb dd hdd hdid
    rw [hclosed] at hb
    rcases List.mem_map.mp hb with ⟨b0, hb0, hbeq⟩
    subst hbeq
    simp only at hdd
    rcases List.mem_map.mp hdd with ⟨dd0, hdd0, hddeq⟩
    subst hddeq
    rw [applyResult_documentID] at hdid
    rw [hdid, hf]
    constructor <;> rfl

/-- Witness for C7 at the same concrete two-batch input: the d2 worker
raises "crash", the metrics count all three documents, and d2 is
rejected with the critical-processing-error reason. -/
theorem C7_pipeline_fault_isolation_witness :
    (run_pipeline
        [{ customerID := "c1", transactionID := some "t1",
           documents := [{ documentID := "d1", documentPath := "a.pdf",
                           requiresOCR := true },
                         { documentID := "d2", documentPath := "b.pdf",
                           requiresOCR := true }] },
         { customerID := "c2",
           documents := [{ documentID := "d3", documentPath := "c.pdf" }] }]
        (fun id => if id = "d2" then .error "crash" else .ok (true, [], []))
        ["d3", "d1", "d2"]).2.total_docs = 3 ∧
    (run_pipeline
        [{ customerID := "c1", transactionID := some "t1",
           documents := [{ documentID := "d1", documentPath := "a.pdf",
                           requiresOCR := true },
                         { documentID := "d2", documentPath := "b.pdf",
                           requiresOCR := true }] },
         { customerID := "c2",
           documents := [{ documentID := "d3", documentPath := "c.pdf" }] }]
        (fun id => if id = "d2" then .error "crash" else .ok (true, [], []))
        ["d3", "d1", "d2"]).2.total_docs =
      (run_pipeline
        [{ customerID := "c1", transactionID := some "t1",
           documents := [{ documentID := "d1", documentPath := "a.pdf",
                           requiresOCR := true },
                         { documentID := "d2", documentPath := "b.pdf",
                           requiresOCR := true }] },
         { customerID := "c2",
           documents := [{ documentID := "d3", documentPath := "c.pdf" }] }]
        (fun id => if id = "d2" then .error "crash" else .ok (true, [], []))
        ["d3", "d1", "d2"]).2.accepted_docs +
      (run_pipeline
        [{ customerID := "c1", transactionID := some "t1",
           documents := [{ documentID := "d1", documentPath := "a.pdf",
                           requiresOCR := true },
                         { documentID := "d2", documentPath := "b.pdf",
                           requiresOCR := true }] },
         { customerID := "c2",
           documents := [{ documentID := "d3", documentPath := "c.pdf" }] }]
        (fun id => if id = "d2" then .error "crash" else .ok (true, [], []))
        ["d3", "d1", "d2"]).2.rejected_docs := by
  have h := C7_pipeline_fault_isolation
    [{ customerID := "c1", transactionID := some "t1",
       documents := [{ documentID := "d1", documentPath := "a.pdf",
                       requiresOCR := true },
                     { documentID := "d2", documentPath := "b.pdf",
                       requiresOCR := true }] },
     { customerID := "c2",
       documents := [{ documentID := "d3", documentPath := "c.pdf" }] }]
    (fun id => if id = "d2" then .error "crash" else .ok (true, [], []))
    ["d3", "d1", "d2"] "d2" "crash"
    (by decide) (by decide) rfl
  exact ⟨by rw [h.1]; rfl, h.2.1⟩

/-! ### C9 -/

/-- The accepted flag of the criteria loop is the conjunction of critOk
over the remaining criteria. -/
theorem acceptedOf_checksLoop (d : DocCtx) (clF : List CriteriaConfig)
    (pages : List PageM) (crs : List ℚ) (fmt : String)
    (l : List CriteriaConfig) (acc : Bool) (rs ws : List String) :
    acceptedOf (checksLoop d clF pages crs fmt l acc rs ws) =
      (acc && l.all (critOk d clF pages crs fmt)) := by
  induction l generalizing acc rs ws with
  | nil => simp [checksLoop, acceptedOf]
  | cons c rest ih =>
    simp only [checksLoop, List.all_cons]
    cases hc : checkCriterion d clF pages crs fmt c with
    | error e => simp [acceptedOf, critOk, outcomeOk, hc]
    | ok oc =>
      cases oc with
      | pass => simp [critOk, outcomeOk, hc, ih, Bool.and_assoc]
      | skip => simp [critOk, outcomeOk, hc, ih, Bool.and_assoc]
      | fail r =>
        cases hty : c.type with
        | required => simp [acceptedOf, critOk, outcomeOk, hc, hty]
        | recommended => simp [critOk, outcomeOk, hc, hty, ih]
        | warning => simp [critOk, outcomeOk, hc, hty, ih]

/-- When the prelude of run_all_checks_for_document succeeds, the
document is accepted exactly when every criterion is critOk. -/
theorem run_accepted_eq_all (G : List CriteriaConfig) (d : DocCtx)
    (cl : List CriteriaConfig) (k : ℤ) (pages : List PageM) (crs : List ℚ)
    (hk : min_dpi_to_extract G = .ok k)
    (hx : _get_images_from_path d (resolvedFormat d) k = .ok pages)
    (hne : pages.isEmpty = false)
    (hcrs : pages.mapM (fun p => p.contentRatio) = .ok crs) :
    (run_all_checks_for_document G d cl).1 =
      cl.all (critOk d cl pages crs (resolvedFormat d)) := by
  have hA := acceptedOf_checksLoop d cl pages crs (resolvedFormat d) cl
    true [] []
  simp only [Bool.true_and] at hA
  simp only [run_all_checks_for_document, runBody, hk, hx, hne,
    exceptBind_ok, Bool.false_eq_true, if_false, hcrs]
  rw [← hA]
  cases checksLoop d cl pages crs (resolvedFormat d) cl true [] [] with
  | ok r => rfl
  | error e => rfl

/-- The critOk observation depends on the full criteria list only through
the text_density lookup. -/
theorem critOk_congr_clF (d : DocCtx) (clF clF' : List CriteriaConfig)
    (pages : List PageM) (crs : List ℚ) (fmt : String) (c : CriteriaConfig)
    (h : findTextDensityMin clF = findTextDensityMin clF') :
    critOk d clF pages crs fmt c = critOk d clF' pages crs fmt c := by
  simp only [critOk, checkCriterion_congr_clF d clF clF' pages crs fmt c h]

/-- The text_density lookup ignores a replaced entry that is not named
text_density. -/
theorem findTextDensityMin_congr_notd (pre post : List CriteriaConfig)
    (c c' : CriteriaConfig) (hn : c'.name = c.name)
    (htd : ¬c.name = "text_density") :
    findTextDensityMin (pre ++ c' :: post) =
      findTextDensityMin (pre ++ c :: post) := by
  induction pre with
  | nil =>
    rw [List.nil_append, List.nil_append,
      findTextDensityMin_cons _ _ (by rw [hn]; exact htd),
      findTextDensityMin_cons _ _ htd]
  | cons a pre ih =>
    by_cases h : a.name = "text_density"
    · simp [findTextDensityMin, List.find?_cons, h]
    · rw [List.cons_append, List.cons_append,
        findTextDensityMin_cons _ _ h, findTextDensityMin_cons _ _ h, ih]

theorem critOk_mono_blur (d : DocCtx) (clF : List CriteriaConfig)
    (pages : List PageM) (crs : List ℚ) (fmt : String) (c : CriteriaConfig)
    (t : Threshold) (lo hi : ℚ) (hle : lo ≤ hi)
    (hname : c.name = "blur") (hthr : c.threshold = some t)
    (hlo : t.min_variance = some lo)
    (hok : critOk d clF pages crs fmt
      { c with threshold := some { t with min_variance := some hi } } = true) :
    critOk d clF pages crs fmt c = true := by
  have hform : ∀ mv : Option ℚ,
      checkCriterion d clF pages crs fmt
        { c with threshold := some { t with min_variance := mv } } =
      (do
        let vs ← pages.mapM (fun p => p.blurVar)
        let low ← pyLt (some (aggregate vs "min")) mv
        if low then
          Except.ok (.fail ("Image too blurry (variance: " ++
            fmt2 (aggregate vs "min") ++ ")"))
        else Except.ok .pass) := by
    intro mv
    simp only [checkCriterion, hname, Option.getD_some]
    simp only [String.reduceEq, reduceIte]
  have hformc : checkCriterion d clF pages crs fmt c =
      (do
        let vs ← pages.mapM (fun p => p.blurVar)
        let low ← pyLt (some (aggregate vs "min")) (some lo)
        if low then
          Except.ok (.fail ("Image too blurry (variance: " ++
            fmt2 (aggregate vs "min") ++ ")"))
        else Except.ok .pass) := by
    simp only [checkCriterion, hname, hthr, hlo, Option.getD_some]
    simp only [String.reduceEq, reduceIte, hlo]
  simp only [critOk, hform (some hi)] at hok
  simp only [critOk, hformc]
  cases hvs : pages.mapM (fun p => p.blurVar) with
  | error e =>
    exfalso
    rw [hvs] at hok
    simp [outcomeOk] at hok
  | ok vs =>
    simp only [hvs, exceptBind_ok, pyLt] at hok ⊢
    by_cases hreq : c.type = CriteriaType.required
    · by_cases hlt : aggregate vs "min" < hi
      · simp [hlt, hreq, outcomeOk] at hok
      · have hlt2 : ¬aggregate vs "min" < lo := fun h2 =>
          hlt (lt_of_lt_of_le h2 hle)
        simp [hlt2, outcomeOk]
    · by_cases hlt2 : aggregate vs "min" < lo
      · simp [hlt2, hreq, outcomeOk]
      · simp [hlt2, outcomeOk]

theorem critOk_mono_brightness (d : DocCtx) (clF : List CriteriaConfig)
    (pages : List PageM) (crs : List ℚ) (fmt : String) (c : CriteriaConfig)
    (t : Threshold) (lo hi M : ℚ) (hle : lo ≤ hi)
    (hname : c.name = "brightness") (hthr : c.threshold = some t)
    (hlo : t.min = some lo) (hM : t.max = some M)
    (hok : critOk d clF pages crs fmt
      { c with threshold := some { t with min := some hi } } = true) :
    critOk d clF pages crs fmt c = true := by
  have hform : ∀ mp : Option ℚ,
      checkCriterion d clF pages crs fmt
        { c with threshold := some { t with min := mp } } =
      (do
        let ok ← pyChain mp
          (aggregate (pages.map (fun p => p.brightness)) "avg") t.max
        if ok then Except.ok .pass
        else Except.ok (.fail "Brightness out of range")) := by
    intro mp
    simp only [checkCriterion, hname, Option.getD_some]
    simp only [String.reduceEq, reduceIte]
  have hformc : checkCriterion d clF pages crs fmt c =
      (do
        let ok ← pyChain (some lo)
          (aggregate (pages.map (fun p => p.brightness)) "avg") (some M)
        if ok then Except.ok .pass
        else Except.ok (.fail "Brightness out of range")) := by
    simp only [checkCriterion, hname, hthr, hlo, hM, Option.getD_some]
    simp only [String.reduceEq, reduceIte]
  simp only [critOk, hform (some hi)] at hok
  rw [hM] at hok
  simp only [critOk, hformc]
  simp only [pyChain, pyLe, exceptBind_ok] at hok ⊢
  by_cases hreq : c.type = CriteriaType.required
  · by_cases h1 : hi ≤ aggregate (pages.map (fun p => p.brightness)) "avg"
    · by_cases h2 : aggregate (pages.map (fun p => p.brightness)) "avg" ≤ M
      · have h3 : lo ≤ aggregate (pages.map (fun p => p.brightness)) "avg" :=
          le_trans hle h1
        simp [h1, h2, h3, outcomeOk]
      · simp [h1, h2, hreq, outcomeOk] at hok
    · simp [h1, hreq, outcomeOk] at hok
  · by_cases h3 : lo ≤ aggregate (pages.map (fun p => p.brightness)) "avg"
    · by_cases h2 : aggregate (pages.map (fun p => p.brightness)) "avg" ≤ M
      · simp [h3, h2, outcomeOk]
      · simp [h3, h2, hreq, outcomeOk]
    · simp [h3, hreq, outcomeOk]

theorem resolutionTail_mono (ty : CriteriaType) (pages : List PageM)
    (dpis : List ℚ) (lo hi : ℚ) (hle : lo ≤ hi)
    (hok : outcomeOk ty (resolutionTail pages dpis (some hi)) = true) :
    outcomeOk ty (resolutionTail pages dpis (some lo)) = true := by
  simp only [resolutionTail, pyLt, exceptBind_ok] at hok ⊢
  by_cases h1 : aggregate dpis "min" < hi
  · cases hest : firstPageEst pages with
    | error e =>
      exfalso
      rw [hest] at hok
      simp [h1, outcomeOk] at hok
    | ok est =>
      rw [hest] at hok
      by_cases h2 : est < hi
      · by_cases hreq : ty = CriteriaType.required
        · exfalso
          simp [h1, h2, hreq, outcomeOk] at hok
        · by_cases h1l : aggregate dpis "min" < lo <;>
            by_cases h2l : est < lo <;>
            simp [h1l, h2l, hreq, outcomeOk]
      · have h2l : ¬est < lo := fun hc => h2 (lt_of_lt_of_le hc hle)
        by_cases h1l : aggregate dpis "min" < lo <;>
          simp [h1l, h2l, outcomeOk]
  · have h1l : ¬aggregate dpis "min" < lo := fun hc =>
      h1 (lt_of_lt_of_le hc hle)
    simp [h1l, outcomeOk]

theorem critOk_mono_resolution (d : DocCtx) (clF : List CriteriaConfig)
    (pages : List PageM) (crs : List ℚ) (fmt : String) (c : CriteriaConfig)
    (t : Threshold) (lo hi : ℚ) (hle : lo ≤ hi)
    (hname : c.name = "resolution") (hthr : c.threshold = some t)
    (hlo : t.min_dpi = some lo)
    (hok : critOk d clF pages crs fmt
      { c with threshold := some { t with min_dpi := some hi } } = true) :
    critOk d clF pages crs fmt c = true := by
  have hform : ∀ mp : Option ℚ,
      checkCriterion d clF pages crs fmt
        { c with threshold := some { t with min_dpi := mp } } =
      (do
        let skip ← pyLt (some (aggregate crs "avg")) (findTextDensityMin clF)
        if skip then Except.ok .skip
        else do
          let dpis ←
            if (!(pages.map (fun p => p.metaDpi)).all (fun q => decide (q ≠ 0)))
                && fmt = "pdf" then d.pdfDpis
            else pure (pages.map (fun p => p.metaDpi))
          resolutionTail pages dpis mp) := by
    intro mp
    simp only [checkCriterion, hname, Option.getD_some]
    simp only [String.reduceEq, reduceIte]
  have hformc : checkCriterion d clF pages crs fmt c =
      (do
        let skip ← pyLt (some (aggregate crs "avg")) (findTextDensityMin clF)
        if skip then Except.ok .skip
        else do
          let dpis ←
            if (!(pages.map (fun p => p.metaDpi)).all (fun q => decide (q ≠ 0)))
                && fmt = "pdf" then d.pdfDpis
            else pure (pages.map (fun p => p.metaDpi))
          resolutionTail pages dpis (some lo)) := by
    simp only [checkCriterion, hname, hthr, hlo, Option.getD_some]
    simp only [String.reduceEq, reduceIte]
  simp only [critOk, hform (some hi)] at hok
  simp only [critOk, hformc]
  cases hskip : pyLt (some (aggregate crs "avg")) (findTextDensityMin clF) with
  | error e =>
    exfalso
    rw [hskip] at hok
    simp [outcomeOk] at hok
  | ok sk =>
    rw [hskip] at hok
    simp only [exceptBind_ok] at hok ⊢
    cases sk with
    | true => simp [outcomeOk]
    | false =>
      simp only [Bool.false_eq_true, if_false] at hok ⊢
      by_cases hcond : ((!(pages.map (fun p => p.metaDpi)).all
          (fun q => decide (q ≠ 0))) && decide (fmt = "pdf")) = true
      · simp only [hcond, reduceIte] at hok ⊢
        cases hpd : d.pdfDpis with
        | error e =>
          exfalso
          rw [hpd] at hok
          simp [outcomeOk] at hok
        | ok dpis =>
          rw [hpd] at hok
          simp only [exceptBind_ok] at hok ⊢
          exact resolutionTail_mono c.type pages dpis lo hi hle hok
      · simp only [Bool.not_eq_true] at hcond
        simp only [hcond, Bool.false_eq_true, if_false, exceptPure,
          exceptBind_ok] at hok ⊢
        exact resolutionTail_mono _ _ _ _ _ hle hok

/-- C9 (amended): for the per-criterion thresholds named by the claim —
resolution's min_dpi, blur's min_variance, brightness's min (with max
configured) — raising the threshold of a required criterion is monotone:
a document accepted under the higher threshold is also accepted under the
lower one, all else fixed.  (The amendment restricts the claim to the
criterion's own comparison threshold: raising text_density's min_percent
is not covered, since the resolution check consults it as a skip bound.) -/
theorem C9_required_threshold_monotonicity (G : List CriteriaConfig)
    (d : DocCtx) (pre post : List CriteriaConfig) (c c' : CriteriaConfig)
    (t : Threshold) (lo hi : ℚ) (hle : lo ≤ hi)
    (hthr : c.threshold = some t)
    (hcase :
      (c.name = "resolution" ∧ t.min_dpi = some lo ∧
        c' = { c with threshold := some { t with min_dpi := some hi } }) ∨
      (c.name = "blur" ∧ t.min_variance = some lo ∧
        c' = { c with threshold := some { t with min_variance := some hi } }) ∨
      (c.name = "brightness" ∧ t.min = some lo ∧ (∃ M, t.max = some M) ∧
        c' = { c with threshold := some { t with min := some hi } }))
    (hacc : (run_all_checks_for_document G d (pre ++ c' :: post)).1 = true) :
    (run_all_checks_for_document G d (pre ++ c :: post)).1 = true := by
  have hname' : c'.name = c.name := by
    rcases hcase with ⟨h1, h2, h3⟩ | ⟨h1, h2, h3⟩ | ⟨h1, h2, h3, h4⟩
    · rw [h3]
    · rw [h3]
    · rw [h4]
  have htd : ¬c.name = "text_density" := by
    rcases hcase with ⟨h1, h2, h3⟩ | ⟨h1, h2, h3⟩ | ⟨h1, h2, h3, h4⟩ <;>
      simp [h1]
  have hfd : findTextDensityMin (pre ++ c' :: post) =
      findTextDensityMin (pre ++ c :: post) :=
    findTextDensityMin_congr_notd pre post c c' hname' htd
  cases hk : min_dpi_to_extract G with
  | error e =>
    simp [run_all_checks_for_document, runBody, hk] at hacc
  | ok k =>
    cases hx : _get_images_from_path d (resolvedFormat d) k with
    | error e =>
      simp [run_all_checks_for_document, runBody, hk, hx] at hacc
    | ok pages =>
      cases hemp : pages.isEmpty with
      | true =>
        simp [run_all_checks_for_document, runBody, hk, hx, hemp] at hacc
      | false =>
        cases hcrs : pages.mapM (fun p => p.contentRatio) with
        | error e =>
          simp only [run_all_checks_for_document, runBody, hk, hx, hemp,
            exceptBind_ok, exceptBind_error, Bool.false_eq_true, if_false,
            hcrs] at hacc
          simp at hacc
        | ok crs =>
          rw [run_accepted_eq_all G d (pre ++ c' :: post) k pages crs
            hk hx hemp hcrs] at hacc
          rw [run_accepted_eq_all G d (pre ++ c :: post) k pages crs
            hk hx hemp hcrs]
          have hfun : critOk d (pre ++ c' :: post) pages crs
              (resolvedFormat d) =
              critOk d (pre ++ c :: post) pages crs (resolvedFormat d) :=
            funext fun x =>
              critOk_congr_clF d _ _ pages crs (resolvedFormat d) x hfd
          rw [hfun] at hacc
          simp only [List.all_append, List.all_cons,
            Bool.and_eq_true] at hacc ⊢
          refine ⟨hacc.1, ?_, hacc.2.2⟩
          rcases hcase with ⟨hn, hlo, hc'⟩ | ⟨hn, hlo, hc'⟩ |
            ⟨hn, hlo, ⟨M, hM⟩, hc'⟩
          · subst hc'
            exact critOk_mono_resolution d _ pages crs _ c t lo hi hle
              hn hthr hlo hacc.2.1
          · subst hc'
            exact critOk_mono_blur d _ pages crs _ c t lo hi hle
              hn hthr hlo hacc.2.1
          · subst hc'
            exact critOk_mono_brightness d _ pages crs _ c t lo hi M hle
              hn hthr hlo hM hacc.2.1

/-- Witness for C9: a blur criterion whose min_variance is raised from 100
to 120 on a page of blur variance 150; the document is accepted under the
higher threshold, and the theorem carries acceptance down to 100. -/
theorem C9_required_threshold_monotonicity_witness :
    (run_all_checks_for_document [] (mkCtx [mkPage 50 100 150])
        [{ name := "blur", type := .required,
           threshold := some { min_variance := some 120 } }]).1 = true ∧
    (run_all_checks_for_document [] (mkCtx [mkPage 50 100 150])
        [{ name := "blur", type := .required,
           threshold := some { min_variance := some 100 } }]).1 = true := by
  have hhi : (run_all_checks_for_document [] (mkCtx [mkPage 50 100 150])
      [{ name := "blur", type := .required,
         threshold := some { min_variance := some 120 } }]).1 = true := by
    simp only [run_all_checks_for_document, runBody, mkCtx,
      min_dpi_to_extract, _get_images_from_path, resolvedFormat,
      checksLoop, checkCriterion]
    simp only [String.reduceEq, reduceIte]
    norm_num [mkPage, pyChain, pyLt, pyLe, aggregate, findTextDensityMin,
      List.mapM, List.mapM.loop, List.find?, min_def, max_def]
  refine ⟨hhi, ?_⟩
  exact C9_required_threshold_monotonicity [] (mkCtx [mkPage 50 100 150])
    [] [] { name := "blur", type := .required,
            threshold := some { min_variance := some 100 } }
    { name := "blur", type := .required,
      threshold := some { min_variance := some 120 } }
    { min_variance := some 100 } 100 120 (by norm_num) rfl
    (Or.inr (Or.inl ⟨rfl, rfl, rfl⟩)) hhi

/-- C9 counterexample to the unrestricted claim: raising the required
text_density criterion's min_percent from 50 to 70 flips the verdict from
rejected to accepted, because the resolution check skips itself whenever
the average content ratio is below the text_density min_percent.  Pages
with content ratios 20 and 100 (average 60) and dpi 100 against a required
min_dpi of 300: with min_percent 50 the resolution check runs and rejects;
with min_percent 70 it is skipped and the document is accepted. -/
theorem C9_text_density_threshold_counterexample :
    (50 : ℚ) ≤ 70 ∧
    (run_all_checks_for_document []
        (mkCtx [mkPage 20 100 200, mkPage 100 100 200])
        [{ name := "resolution", type := .required,
           threshold := some { min_dpi := some 300 } },
         { name := "text_density", type := .required,
           threshold := some { min_percent := some 50,
                               max_percent := some 100 },
           aggregate_mode := "max" }]).1 = false ∧
    (run_all_checks_for_document []
        (mkCtx [mkPage 20 100 200, mkPage 100 100 200])
        [{ name := "resolution", type := .required,
           threshold := some { min_dpi := some 300 } },
         { name := "text_density", type := .required,
           threshold := some { min_percent := some 70,
                               max_percent := some 100 },
           aggregate_mode := "max" }]).1 = true := by
  refine ⟨by norm_num, ?_, ?_⟩
  · simp only [run_all_checks_for_document, runBody, mkCtx,
      min_dpi_to_extract, _get_images_from_path, resolvedFormat,
      checksLoop, checkCriterion, resolutionTail, firstPageEst]
    simp only [String.reduceEq, reduceIte]
    norm_num [mkPage, pyChain, pyLt, pyLe, aggregate, findTextDensityMin,
      List.mapM, List.mapM.loop, List.find?, min_def, max_def]
    try simp only [String.reduceEq, reduceIte]
    try norm_num [min_def, max_def]
  · simp only [run_all_checks_for_document, runBody, mkCtx,
      min_dpi_to_extract, _get_images_from_path, resolvedFormat,
      checksLoop, checkCriterion, resolutionTail, firstPageEst]
    simp only [String.reduceEq, reduceIte]
    norm_num [mkPage, pyChain, pyLt, pyLe, aggregate, findTextDensityMin,
      List.mapM, List.mapM.loop, List.find?, min_def, max_def]
    try simp only [String.reduceEq, reduceIte]
    try norm_num [min_def, max_def]

end DocQA
